import Mathlib

/-!
libfsxfs: inode decoding and the info handle of fsxfsinfo.

A shallow embedding of the functions of libfsxfs/libfsxfs_inode.c (built
without `HAVE_DEBUG_OUTPUT`) and of the functions of fsxfstools/info_handle.c
that parse a decimal number, signal an abort, print file entries, print an
escaped name and build the file mode string (built without
`HAVE_WIDE_SYSTEM_CHARACTER` and without `TODO`), of
`libfsxfs_debug_print_fork_type` (libfsxfs/libfsxfs_debug.c), and the
properties of the specification that concern them.
-/

namespace Fsxfs

set_option maxRecDepth 100000

/-! ## Data model -/

/-- One byte of an on-disk buffer (`uint8_t`). -/
abbrev uint8_t := Fin 256

/-- Modelled from the spec: the constants `sizeof( fsxfs_inode_v1_t )`,
`sizeof( fsxfs_inode_v3_t )` (fsxfs_inode.h) and `SSIZE_MAX` (common.h) that
`libfsxfs_inode_read_data` compares `data_size` with. The headers that declare
them are not part of the sources at hand, so they are parameters of the
embedding. -/
structure header_constants where
  sizeof_fsxfs_inode_v1_t : Nat
  sizeof_fsxfs_inode_v3_t : Nat
  SSIZE_MAX : Nat
deriving DecidableEq, Repr

/-- Modelled from the spec: the inode record `libfsxfs_inode_t`
(libfsxfs_inode.h is not part of the sources at hand). The first six fields are
the ones `libfsxfs_inode_read_data` assigns; `creation_time` is the fourth time
field of the inode record in the data model of the specification. The time
fields are signed 64-bit nanosecond counts, the identifiers 32-bit and the file
mode 16-bit. -/
structure libfsxfs_inode_t where
  file_mode : Nat
  owner_identifier : Nat
  group_identifier : Nat
  access_time : Int
  modification_time : Int
  inode_change_time : Int
  creation_time : Int
deriving DecidableEq, Repr

/-- The record after `memory_set( inode, 0, sizeof( libfsxfs_inode_t ) )`. -/
def libfsxfs_inode_zero : libfsxfs_inode_t :=
  { file_mode := 0, owner_identifier := 0, group_identifier := 0,
    access_time := 0, modification_time := 0, inode_change_time := 0,
    creation_time := 0 }

/-! ## Byte access -/

/-- The byte `data[ i ]` as a number; an index outside the list reads as 0. -/
def byte_at (data : List uint8_t) (i : Nat) : Nat :=
  (data.getD i 0).val

/-- Modelled from the spec: `byte_stream_copy_to_uint16_big_endian`
(byte_stream.h is not part of the sources at hand): the big-endian value of the
2 bytes at `offset`, stored in a destination of `width` bits. -/
def byte_stream_copy_to_uint16_big_endian (width : Nat) (data : List uint8_t)
    (offset : Nat) : Nat :=
  (byte_at data offset * 256 + byte_at data (offset + 1)) % 2 ^ width

/-- Modelled from the spec: `byte_stream_copy_to_uint32_big_endian`
(byte_stream.h is not part of the sources at hand): the big-endian value of the
4 bytes at `offset`, stored in a destination of `width` bits. -/
def byte_stream_copy_to_uint32_big_endian (width : Nat) (data : List uint8_t)
    (offset : Nat) : Nat :=
  (((byte_at data offset * 256 + byte_at data (offset + 1)) * 256
      + byte_at data (offset + 2)) * 256 + byte_at data (offset + 3)) % 2 ^ width

/-- The value an `int64_t` holds after it is assigned the mathematical integer
`x` (two's complement wrap). -/
def int64_wrap (x : Int) : Int :=
  (x + 2 ^ 63) % 2 ^ 64 - 2 ^ 63

/-! ## Header layout

Modelled from the spec: the byte offsets of the fields of `fsxfs_inode_v1_t`
and `fsxfs_inode_v3_t`. fsxfs_inode.h is not part of the sources at hand; the
offsets follow the XFS on-disk inode core, whose fields the debug output of
`libfsxfs_inode_read_data` lists in declaration order: signature (2 bytes),
file mode (2), format version (1), fork type (1), number of links (2), owner
identifier (4), group identifier (4), unknown2 (14), flush counter (2), then
the three pairs of seconds and nanoseconds (4 + 4 each). -/

/-- Offset of `signature` in `fsxfs_inode_v1_t`. -/
def offset_signature : Nat := 0
/-- Offset of `file_mode` in `fsxfs_inode_v1_t`. -/
def offset_file_mode : Nat := 2
/-- Offset of `format_version` in `fsxfs_inode_v1_t`. -/
def offset_format_version : Nat := 4
/-- Offset of `owner_identifier` in `fsxfs_inode_v1_t`. -/
def offset_owner_identifier : Nat := 8
/-- Offset of `group_identifier` in `fsxfs_inode_v1_t`. -/
def offset_group_identifier : Nat := 12
/-- Offset of `access_time` in `fsxfs_inode_v1_t`. -/
def offset_access_time : Nat := 32
/-- Offset of `access_time_nano_seconds` in `fsxfs_inode_v1_t`. -/
def offset_access_time_nano_seconds : Nat := 36
/-- Offset of `modification_time` in `fsxfs_inode_v1_t`. -/
def offset_modification_time : Nat := 40
/-- Offset of `modification_time_nano_seconds` in `fsxfs_inode_v1_t`. -/
def offset_modification_time_nano_seconds : Nat := 44
/-- Offset of `inode_change_time` in `fsxfs_inode_v1_t`. -/
def offset_inode_change_time : Nat := 48
/-- Offset of `inode_change_time_nano_seconds` in `fsxfs_inode_v1_t`. -/
def offset_inode_change_time_nano_seconds : Nat := 52
/-- End of the last field of `fsxfs_inode_v1_t` that the decoder reads. -/
def offset_end_of_times : Nat := 56
/-- Offset of `creation_time` in `fsxfs_inode_v3_t`. -/
def offset_creation_time : Nat := 144
/-- Offset of `creation_time_nano_seconds` in `fsxfs_inode_v3_t`. -/
def offset_creation_time_nano_seconds : Nat := 148

/-! ## libfsxfs_inode_read_data -/

/-- The statement pair `byte_stream_copy_to_uint32_big_endian( seconds, t );
byte_stream_copy_to_uint32_big_endian( nano_seconds, value_32bit );
t *= 1000000000; t += value_32bit;` on a 64-bit time field `t`. -/
def read_time (data : List uint8_t) (offset_seconds offset_nano_seconds : Nat) : Int :=
  let t : Int := (byte_stream_copy_to_uint32_big_endian 64 data offset_seconds : Nat)
  let value_32bit : Nat := byte_stream_copy_to_uint32_big_endian 32 data offset_nano_seconds
  let t := int64_wrap (t * 1000000000)
  int64_wrap (t + value_32bit)

/-- The field assignments of `libfsxfs_inode_read_data` between the signature
check and the format version check (lines 239 to 282). -/
def read_data_fields (inode : libfsxfs_inode_t) (data : List uint8_t) : libfsxfs_inode_t :=
  { inode with
    file_mode := byte_stream_copy_to_uint16_big_endian 16 data offset_file_mode
    owner_identifier := byte_stream_copy_to_uint32_big_endian 32 data offset_owner_identifier
    group_identifier := byte_stream_copy_to_uint32_big_endian 32 data offset_group_identifier
    access_time := read_time data offset_access_time offset_access_time_nano_seconds
    modification_time :=
      read_time data offset_modification_time offset_modification_time_nano_seconds
    inode_change_time :=
      read_time data offset_inode_change_time offset_inode_change_time_nano_seconds }

/-- `libfsxfs_inode_read_data`, built without debug output. `inode` and `data`
are `none` for a NULL pointer. The result is the return value together with the
inode record after the call. -/
def libfsxfs_inode_read_data (K : header_constants) (inode : Option libfsxfs_inode_t)
    (data : Option (List uint8_t)) (data_size : Nat) : Int × Option libfsxfs_inode_t :=
  match inode with
  | none => (-1, none)
  | some ino =>
    match data with
    | none => (-1, some ino)
    | some d =>
      if data_size < K.sizeof_fsxfs_inode_v1_t ∨ data_size > K.SSIZE_MAX then
        (-1, some ino)
      else
        let format_version := byte_at d offset_format_version
        if format_version = 3 ∧ data_size < K.sizeof_fsxfs_inode_v3_t then
          (-1, some ino)
        else if ¬ (byte_at d offset_signature = 0x49
            ∧ byte_at d (offset_signature + 1) = 0x4E) then
          (-1, some ino)
        else
          let ino := read_data_fields ino d
          if format_version ≠ 1 ∧ format_version ≠ 2 ∧ format_version ≠ 3 then
            (-1, some ino)
          else
            (1, some ino)

/-- The indices of `data` that `libfsxfs_inode_read_data` reads, in the order
of the reads: the format version after the two size checks, the signature, and
after a matching signature the file mode, the identifiers and the times. -/
def libfsxfs_inode_read_data_reads (K : header_constants) (inode : Option libfsxfs_inode_t)
    (data : Option (List uint8_t)) (data_size : Nat) : List Nat :=
  match inode with
  | none => []
  | some _ =>
    match data with
    | none => []
    | some d =>
      if data_size < K.sizeof_fsxfs_inode_v1_t ∨ data_size > K.SSIZE_MAX then
        []
      else
        let format_version := byte_at d offset_format_version
        if format_version = 3 ∧ data_size < K.sizeof_fsxfs_inode_v3_t then
          [offset_format_version]
        else if ¬ (byte_at d offset_signature = 0x49
            ∧ byte_at d (offset_signature + 1) = 0x4E) then
          [offset_format_version, offset_signature, offset_signature + 1]
        else
          [offset_format_version, offset_signature, offset_signature + 1]
            ++ List.range' offset_file_mode 2
            ++ List.range' offset_owner_identifier 4
            ++ List.range' offset_group_identifier 4
            ++ List.range' offset_access_time 8
            ++ List.range' offset_modification_time 8
            ++ List.range' offset_inode_change_time 8

/-! ## libfsxfs_inode_read_file_io_handle -/

/-- The two calls `libfsxfs_inode_read_file_io_handle` makes on a file IO
handle. -/
inductive bfio_call where
  | seek_offset (offset : Int)
  | read_buffer (size : Nat)
deriving DecidableEq, Repr

/-- The byte source behind a `libbfio_handle_t` (libbfio is an external
library): `seek_offset h offset` is `libbfio_handle_seek_offset( h, offset,
SEEK_SET, error )`, giving the return value (-1 on failure) and the handle
after the call; `read_buffer h size` is `libbfio_handle_read_buffer( h, buffer,
size, error )`, giving the read count, the contents of the buffer after the
call and the handle after the call. -/
structure libbfio (H : Type) where
  seek_offset : H → Int → Int × H
  read_buffer : H → Nat → Int × List uint8_t × H

/-- What a call of `libfsxfs_inode_read_file_io_handle` leaves behind: the
return value, the inode record, the file IO handle and the calls made on the
handle, oldest first. -/
structure read_file_io_handle_result (H : Type) where
  result : Int
  inode : Option libfsxfs_inode_t
  file_io_handle : H
  calls : List bfio_call

/-- The value returned at the label `on_error` of
`libfsxfs_inode_read_file_io_handle` (line 757: `return( 1 );`). -/
def read_file_io_handle_on_error : Int := 1

/-- `libfsxfs_inode_read_file_io_handle`, built without debug output.
`memory_allocate_ok` tells whether `memory_allocate` returns a buffer. -/
def libfsxfs_inode_read_file_io_handle {H : Type} (K : header_constants) (B : libbfio H)
    (memory_allocate_ok : Bool) (inode : Option libfsxfs_inode_t) (file_io_handle : H)
    (file_offset : Int) (inode_size : Nat) : read_file_io_handle_result H :=
  if inode_size ≠ 256 ∧ inode_size ≠ 512 ∧ inode_size ≠ 1024 ∧ inode_size ≠ 2048 then
    { result := -1, inode := inode, file_io_handle := file_io_handle, calls := [] }
  else
    let seek := B.seek_offset file_io_handle file_offset
    if seek.1 = -1 then
      { result := read_file_io_handle_on_error, inode := inode, file_io_handle := seek.2,
        calls := [bfio_call.seek_offset file_offset] }
    else if memory_allocate_ok = false then
      { result := read_file_io_handle_on_error, inode := inode, file_io_handle := seek.2,
        calls := [bfio_call.seek_offset file_offset] }
    else
      let read := B.read_buffer seek.2 inode_size
      let read_count := read.1
      let inode_data := read.2.1
      if read_count ≠ (inode_size : Int) then
        { result := read_file_io_handle_on_error, inode := inode, file_io_handle := read.2.2,
          calls := [bfio_call.seek_offset file_offset, bfio_call.read_buffer inode_size] }
      else
        let decoded := libfsxfs_inode_read_data K inode (some inode_data) inode_size
        if decoded.1 ≠ 1 then
          { result := read_file_io_handle_on_error, inode := decoded.2,
            file_io_handle := read.2.2,
            calls := [bfio_call.seek_offset file_offset, bfio_call.read_buffer inode_size] }
        else
          { result := 1, inode := decoded.2, file_io_handle := read.2.2,
            calls := [bfio_call.seek_offset file_offset, bfio_call.read_buffer inode_size] }

/-! ## A byte source in memory -/

/-- A file held in memory: its bytes and the current offset. -/
structure mem_handle where
  bytes : List uint8_t
  offset : Nat
deriving DecidableEq, Repr

/-- A byte source over `mem_handle`: a seek to a negative offset fails, a read
delivers the bytes from the current offset on, fewer than asked for at the end
of the file (the rest of the buffer is zero). -/
def mem_bfio : libbfio mem_handle where
  seek_offset h offset :=
    if offset < 0 then (-1, h) else (offset, { h with offset := offset.toNat })
  read_buffer h size :=
    let got := (h.bytes.drop h.offset).take size
    ((got.length : Int), got ++ List.replicate (size - got.length) 0,
      { h with offset := h.offset + got.length })

/-- The header constants of a 64-bit build: 96-byte version 1 and 2 inode
core, 176-byte version 3 inode core. -/
def xfs_constants : header_constants :=
  { sizeof_fsxfs_inode_v1_t := 96, sizeof_fsxfs_inode_v3_t := 176,
    SSIZE_MAX := 2 ^ 63 - 1 }

/-- A buffer of `size` bytes that starts with the listed bytes and continues
with the byte `fill`. -/
def buffer_of (head : List uint8_t) (fill : uint8_t) (size : Nat) : List uint8_t :=
  (head ++ List.replicate (size - head.length) fill).take size

/-- The first 56 bytes of an inode header with signature `IN`, file mode
0x81a4, the given format version, owner 1000, group 100, access time 1 s + 2 ns,
modification time 3 s + 4 ns and inode change time 5 s + 6 ns. -/
def sample_header (format_version : uint8_t) : List uint8_t :=
  [0x49, 0x4E, 0x81, 0xA4, format_version, 2, 0, 1,
   0, 0, 0x03, 0xE8, 0, 0, 0, 100,
   0, 0, 0, 0, 0, 0, 0, 0, 0, 0, 0, 0, 0, 0, 0, 0,
   0, 0, 0, 1, 0, 0, 0, 2,
   0, 0, 0, 3, 0, 0, 0, 4,
   0, 0, 0, 5, 0, 0, 0, 6]


/-- A 512-byte image: 256 bytes 0xff, then a version 2 inode of 256 bytes. -/
def sample_image : List uint8_t :=
  List.replicate 256 0xFF ++ buffer_of (sample_header 2) 0 256

/-! ## Arithmetic of the decoded fields -/

/-- The 16-bit big-endian number held by the 2 bytes at `offset`. -/
def uint16_big_endian (data : List uint8_t) (offset : Nat) : Nat :=
  byte_at data offset * 2 ^ 8 + byte_at data (offset + 1)

/-- The 32-bit big-endian number held by the 4 bytes at `offset`. -/
def uint32_big_endian (data : List uint8_t) (offset : Nat) : Nat :=
  byte_at data offset * 2 ^ 24 + byte_at data (offset + 1) * 2 ^ 16
    + byte_at data (offset + 2) * 2 ^ 8 + byte_at data (offset + 3)

/-! ## info_handle_system_string_copy_from_64_bit_in_decimal -/

/-- The character `string[ i ]` of a `system_character_t` string as a number;
an index outside the list reads as the terminator 0. -/
def char_at (string : List Nat) (i : Nat) : Nat :=
  string.getD i 0

/-- The `while( string_index < string_size )` loop of
`info_handle_system_string_copy_from_64_bit_in_decimal` (lines 122 to 162), with
`remaining = string_size - string_index`. The result is -1 with the value stored
so far when the loop returns -1, and 1 with the value stored when the loop ends
(at the terminator or at `string_size`). `*value_64bit` is a `uint64_t`. -/
def copy_from_64_bit_in_decimal_loop (string : List Nat) (maximum_string_index : Nat) :
    Nat → Nat → Nat → Int × Nat
  | 0, _, value_64bit => (1, value_64bit)
  | remaining + 1, string_index, value_64bit =>
    if char_at string string_index = 0 then
      (1, value_64bit)
    else if string_index > maximum_string_index then
      (-1, value_64bit)
    else
      let value_64bit := value_64bit * 10 % 2 ^ 64
      if char_at string string_index ≥ 0x30 ∧ char_at string string_index ≤ 0x39 then
        let character_value := char_at string string_index - 0x30
        copy_from_64_bit_in_decimal_loop string maximum_string_index remaining
          (string_index + 1) ((value_64bit + character_value) % 2 ^ 64)
      else
        (-1, value_64bit)

/-- `info_handle_system_string_copy_from_64_bit_in_decimal`. `string` and
`value_64bit` are `none` for a NULL pointer, `value_64bit` holds the value
stored before the call. The result is the return value and `*value_64bit`
after the call. `0x2D` is `-`, `0x2B` is `+`. -/
def info_handle_system_string_copy_from_64_bit_in_decimal (SSIZE_MAX : Nat)
    (string : Option (List Nat)) (string_size : Nat) (value_64bit : Option Nat) :
    Int × Option Nat :=
  match string with
  | none => (-1, value_64bit)
  | some s =>
    if string_size > SSIZE_MAX then
      (-1, value_64bit)
    else
      match value_64bit with
      | none => (-1, none)
      | some _ =>
        let signed := char_at s 0 = 0x2D ∨ char_at s 0 = 0x2B
        let string_index := if signed then 1 else 0
        let maximum_string_index := if signed then 21 else 20
        let sign : Int := if char_at s 0 = 0x2D then -1 else 1
        let loop := copy_from_64_bit_in_decimal_loop s maximum_string_index
          (string_size - string_index) string_index 0
        if loop.1 = -1 then
          (-1, some loop.2)
        else if sign = -1 then
          (1, some (loop.2 * (2 ^ 64 - 1) % 2 ^ 64))
        else
          (1, some loop.2)

/-- The number that a list of decimal digits denotes, most significant digit
first, continuing from `value`. -/
def decimal_value_from (value : Nat) (digits : List Nat) : Nat :=
  digits.foldl (fun acc d => acc * 10 + d) value

/-- The number that a list of decimal digits denotes. -/
def decimal_value (digits : List Nat) : Nat :=
  decimal_value_from 0 digits

/-- The NUL-terminated string of the decimal digits, after a `+` when `plus`
is set. -/
def decimal_string (plus : Bool) (digits : List Nat) : List Nat :=
  (if plus then [0x2B] else []) ++ digits.map (fun d => d + 0x30) ++ [0]

/-! ## libfsxfs_inode_initialize -/

/-- `libfsxfs_inode_initialize`. `inode` is `none` for a NULL reference,
`some none` for a reference that holds NULL and `some (some i)` for a reference
that holds the inode `i`. `memory_allocate_ok` tells whether
`memory_allocate_structure` returns a record. `memory_set` is `memset`, which
returns its destination, so the check of lines 81 to 94 does not fail on the
record just allocated. The result is the return value and the reference after
the call. -/
def libfsxfs_inode_initialize (memory_allocate_ok : Bool)
    (inode : Option (Option libfsxfs_inode_t)) : Int × Option (Option libfsxfs_inode_t) :=
  match inode with
  | none => (-1, none)
  | some (some i) => (-1, some (some i))
  | some none =>
    if memory_allocate_ok = false then
      (-1, some none)
    else
      (1, some (some libfsxfs_inode_zero))

/-! ## The info handle -/

/-- Modelled from the spec: the structure `info_handle_t` (info_handle.h is not
part of the sources at hand), with the fields that info_handle.c refers to.
`input_volume` holds the state of the volume it points to, the other pointer
fields hold an identifier; `none` is NULL. -/
structure info_handle_t (V : Type) where
  calculate_md5 : Nat
  volume_offset : Int
  input_file_io_handle : Option Nat
  input_volume : Option V
  bodyfile_stream : Option Nat
  notify_stream : Option Nat
  abort : Int
deriving DecidableEq, Repr

/-- `info_handle_signal_abort`. `libfsxfs_volume_signal_abort` (libfsxfs) gives
its return value and the state of the volume after the call. The result is the
return value and the info handle after the call. -/
def info_handle_signal_abort {V : Type} (libfsxfs_volume_signal_abort : V → Int × V)
    (info_handle : Option (info_handle_t V)) : Int × Option (info_handle_t V) :=
  match info_handle with
  | none => (-1, none)
  | some h =>
    let h := { h with abort := 1 }
    match h.input_volume with
    | none => (1, some h)
    | some volume =>
      let signal := libfsxfs_volume_signal_abort volume
      if signal.1 ≠ 1 then
        (-1, some { h with input_volume := some signal.2 })
      else
        (1, some { h with input_volume := some signal.2 })

/-! ## Errors -/

/-- The error codes that the functions below set (libcerror). -/
inductive libcerror_code where
  | argument_invalid_value
  | runtime_print_failed
  | runtime_finalize_failed
deriving DecidableEq, Repr

/-- An error value of libcerror: the codes set so far, oldest first. -/
abbrev libcerror_error_t := List libcerror_code

/-- `libcerror_error_set( error, ... )`: nothing for a NULL `error`, otherwise
the code is added to the error value that `error` refers to, which is created
when it is NULL. -/
def libcerror_error_set (error : Option (Option libcerror_error_t)) (code : libcerror_code) :
    Option (Option libcerror_error_t) :=
  match error with
  | none => none
  | some none => some (some [code])
  | some (some e) => some (some (e ++ [code]))

/-- `libcerror_error_free( error )`: nothing for a NULL `error`, otherwise the
error value that `error` refers to is freed and set to NULL. -/
def libcerror_error_free (error : Option (Option libcerror_error_t)) :
    Option (Option libcerror_error_t) :=
  match error with
  | none => none
  | some _ => some none

/-! ## info_handle_file_entry_fprint_by_identifier and info_handle_file_entries_fprint -/

/-- What `info_handle_file_entry_fprint_by_identifier` itself writes to the
notify stream. -/
inductive notify_output where
  | error_backtrace
  | error_reading_file_entry (file_entry_identifier : Nat)
  | file_entry_information (file_entry_identifier : Nat)
  | empty_line
deriving DecidableEq, Repr

/-- The calls that `info_handle_file_entry_fprint_by_identifier` makes: each
gets the `error` argument and gives its return value and `error` after the
call; `libfsxfs_volume_get_file_entry_by_inode` also gives the file entry it
stores, and `libfsxfs_file_entry_free`, which gets the address of the file
entry, the file entry that is left (NULL once it is freed). -/
structure file_entry_calls (V F : Type) where
  libfsxfs_volume_get_file_entry_by_inode : Option V → Nat →
    Option (Option libcerror_error_t) → Int × Option F × Option (Option libcerror_error_t)
  info_handle_file_entry_value_with_name_fprint : Option F →
    Option (Option libcerror_error_t) → Int × Option (Option libcerror_error_t)
  libfsxfs_file_entry_free : Option F →
    Option (Option libcerror_error_t) → Int × Option F × Option (Option libcerror_error_t)

/-- One call that `info_handle_file_entry_fprint_by_identifier` makes on a
file entry: the lookup by identifier, the printing, the freeing. -/
inductive file_entry_call where
  | libfsxfs_volume_get_file_entry_by_inode (file_entry_identifier : Nat)
  | info_handle_file_entry_value_with_name_fprint
  | libfsxfs_file_entry_free
deriving DecidableEq, Repr

/-- What a call of `info_handle_file_entry_fprint_by_identifier` leaves behind:
the return value, `error`, the output on the notify stream and the calls made
on a file entry, oldest first. -/
structure fprint_by_identifier_result where
  result : Int
  error : Option (Option libcerror_error_t)
  output : List notify_output
  calls : List file_entry_call
deriving DecidableEq, Repr

/-- The call at the label `on_error` of
`info_handle_file_entry_fprint_by_identifier` (lines 2187 to 2194):
`libfsxfs_file_entry_free( &file_entry, NULL )` when `file_entry` is not NULL.
It gets a NULL error, so the caller's error value stays as it is. -/
def fprint_by_identifier_on_error {F : Type} (file_entry : Option F) :
    List file_entry_call :=
  match file_entry with
  | none => []
  | some _ => [file_entry_call.libfsxfs_file_entry_free]

/-- `info_handle_file_entry_fprint_by_identifier`, with `TODO` undefined. -/
def info_handle_file_entry_fprint_by_identifier {V F : Type} (C : file_entry_calls V F)
    (info_handle : Option (info_handle_t V)) (file_entry_identifier : Nat)
    (error : Option (Option libcerror_error_t)) : fprint_by_identifier_result :=
  match info_handle with
  | none =>
    { result := -1,
      error := libcerror_error_set error libcerror_code.argument_invalid_value,
      output := [],
      calls := [] }
  | some h =>
    let get := C.libfsxfs_volume_get_file_entry_by_inode h.input_volume
      file_entry_identifier error
    if get.1 ≠ 1 then
      { result := 0,
        error := libcerror_error_free get.2.2,
        output :=
          (match get.2.2 with
            | some (some _) => [notify_output.error_backtrace]
            | _ => [])
          ++ [notify_output.error_reading_file_entry file_entry_identifier],
        calls := [file_entry_call.libfsxfs_volume_get_file_entry_by_inode
          file_entry_identifier] }
    else
      let print := C.info_handle_file_entry_value_with_name_fprint get.2.1 get.2.2
      if print.1 ≠ 1 then
        { result := -1,
          error := libcerror_error_set print.2 libcerror_code.runtime_print_failed,
          output := [notify_output.file_entry_information file_entry_identifier],
          calls := [file_entry_call.libfsxfs_volume_get_file_entry_by_inode
              file_entry_identifier,
            file_entry_call.info_handle_file_entry_value_with_name_fprint]
            ++ fprint_by_identifier_on_error get.2.1 }
      else
        let free := C.libfsxfs_file_entry_free get.2.1 print.2
        if free.1 ≠ 1 then
          { result := -1,
            error := libcerror_error_set free.2.2 libcerror_code.runtime_finalize_failed,
            output := [notify_output.file_entry_information file_entry_identifier],
            calls := [file_entry_call.libfsxfs_volume_get_file_entry_by_inode
                file_entry_identifier,
              file_entry_call.info_handle_file_entry_value_with_name_fprint,
              file_entry_call.libfsxfs_file_entry_free]
              ++ fprint_by_identifier_on_error free.2.1 }
        else
          { result := 1,
            error := free.2.2,
            output := [notify_output.file_entry_information file_entry_identifier,
              notify_output.empty_line],
            calls := [file_entry_call.libfsxfs_volume_get_file_entry_by_inode
                file_entry_identifier,
              file_entry_call.info_handle_file_entry_value_with_name_fprint,
              file_entry_call.libfsxfs_file_entry_free] }

/-- The `for` loop of `info_handle_file_entries_fprint` (lines 2050 to 2069),
with `remaining = number_of_file_entries - file_entry_identifier`:
`fprint_by_identifier` is the return value of
`info_handle_file_entry_fprint_by_identifier` for the handle at an identifier.
The result is the return value and the identifiers the function was called
with, in order. -/
def info_handle_file_entries_fprint_loop (fprint_by_identifier : Nat → Int) :
    Nat → Nat → Int × List Nat
  | 0, _ => (1, [])
  | remaining + 1, file_entry_identifier =>
    if fprint_by_identifier file_entry_identifier ≠ 1 then
      (-1, [file_entry_identifier])
    else
      let rest := info_handle_file_entries_fprint_loop fprint_by_identifier remaining
        (file_entry_identifier + 1)
      (rest.1, file_entry_identifier :: rest.2)

/-- `info_handle_file_entries_fprint`, with `TODO` undefined:
`number_of_file_entries` keeps its initial value 0. -/
def info_handle_file_entries_fprint {V : Type} (fprint_by_identifier : Nat → Int)
    (_info_handle : Option (info_handle_t V)) : Int × List Nat :=
  let file_entry_identifier := 0
  let number_of_file_entries := 0
  info_handle_file_entries_fprint_loop fprint_by_identifier
    (number_of_file_entries - file_entry_identifier) file_entry_identifier

/-- A volume whose `libfsxfs_volume_signal_abort` fails: the volume state is
the number of signals received. -/
def failing_volume_signal_abort (volume : Nat) : Int × Nat :=
  (-1, volume + 1)

/-- An info handle with an input volume and a notify stream. -/
def sample_info_handle : info_handle_t Nat :=
  { calculate_md5 := 0, volume_offset := 0, input_file_io_handle := some 1,
    input_volume := some 0, bodyfile_stream := none, notify_stream := some 2, abort := 0 }

/-- Calls of which none fails: the volume holds a file entry for every
identifier, printing and freeing it succeed, no error is set. -/
def succeeding_file_entry_calls : file_entry_calls Nat Nat where
  libfsxfs_volume_get_file_entry_by_inode _ file_entry_identifier error :=
    (1, some file_entry_identifier, error)
  info_handle_file_entry_value_with_name_fprint _ error := (1, error)
  libfsxfs_file_entry_free _ error := (1, none, error)

/-- Calls on a volume that holds no file entry: the lookup returns -1 and sets
an error. -/
def failing_file_entry_calls : file_entry_calls Nat Nat where
  libfsxfs_volume_get_file_entry_by_inode _ _ error :=
    (-1, none, libcerror_error_set error libcerror_code.argument_invalid_value)
  info_handle_file_entry_value_with_name_fprint _ error := (1, error)
  libfsxfs_file_entry_free _ error := (1, none, error)

/-! ## info_handle_name_value_fprint -/

/-- The two calls of libuna (an external library) that
`info_handle_name_value_fprint` makes in a build without
`HAVE_WIDE_SYSTEM_CHARACTER`. `unicode_character_copy_from_utf8 utf8_string
utf8_string_size utf8_string_index` gives the return value, the Unicode
character and the index after the call; `unicode_character_copy_to_utf8
unicode_character utf8_string_size utf8_string_index` gives the return value
and the index after the call, the character being stored in the units between
the two indices. -/
structure libuna where
  unicode_character_copy_from_utf8 : List Nat → Nat → Nat → Int × Nat × Nat
  unicode_character_copy_to_utf8 : Nat → Nat → Nat → Int × Nat

/-- The contract of the two libuna calls: a successful decoding consumes at
least one unit and stays within the string; a successful encoding stores 1 to 4
units within the string; encoding succeeds when 4 units are free. -/
def libuna_contract (U : libuna) : Prop :=
  (∀ s size i, (U.unicode_character_copy_from_utf8 s size i).1 = 1 →
      i < (U.unicode_character_copy_from_utf8 s size i).2.2
        ∧ (U.unicode_character_copy_from_utf8 s size i).2.2 ≤ size)
    ∧ (∀ c size i, (U.unicode_character_copy_to_utf8 c size i).1 = 1 →
      i < (U.unicode_character_copy_to_utf8 c size i).2
        ∧ (U.unicode_character_copy_to_utf8 c size i).2 ≤ i + 4
        ∧ (U.unicode_character_copy_to_utf8 c size i).2 ≤ size)
    ∧ (∀ c size i, i + 4 ≤ size → (U.unicode_character_copy_to_utf8 c size i).1 = 1)

/-- The escaped value string while it is built: the index
`escaped_value_string_index`, the characters stored so far and the writes made
into the buffer, each as the first index written and the number of units
written. -/
structure escaped_value_string_t where
  index : Nat
  text : List Nat
  writes : List (Nat × Nat)
deriving DecidableEq, Repr

/-- The difference `a - b` of two `size_t` values of 64 bits, which wraps when
`b` is the larger one. -/
def size_t_sub (a b : Nat) : Nat :=
  if b ≤ a then a - b else a + 2 ^ 64 - b

/-- The characters that `sprintf` produces for the format `\x%02x`: a
backslash, `x` and the lowercase hexadecimal digits of the character, at least
two. -/
def sprintf_escape (unicode_character : Nat) : List Nat :=
  let digits := (Nat.toDigits 16 unicode_character).map Char.toNat
  [0x5C, 0x78] ++ List.replicate (2 - digits.length) 0x30 ++ digits

/-- The `while( value_string_index < value_string_length )` loop of
`info_handle_name_value_fprint` (lines 879 to 962). `fuel` bounds the number of
iterations; the result is `none` when it is used up before the loop ends, and
otherwise 1 when the loop ends and -1 when it leaves for `on_error`, with the
escaped value string. `system_string_sprintf` is `snprintf`: it stores as much
of the escape and its terminator as fits the size passed and returns the full
length, never a negative number. -/
def info_handle_name_value_fprint_loop (U : libuna) (value_string : List Nat)
    (value_string_length escaped_value_string_size : Nat) :
    Nat → Nat → escaped_value_string_t → Option (Int × escaped_value_string_t)
  | 0, value_string_index, escaped =>
    if value_string_index < value_string_length then none else some (1, escaped)
  | fuel + 1, value_string_index, escaped =>
    if value_string_index < value_string_length then
      let decoded := U.unicode_character_copy_from_utf8 value_string value_string_length
        value_string_index
      let unicode_character := decoded.2.1
      if decoded.1 ≠ 1 then
        some (-1, escaped)
      else if unicode_character ≤ 0x1F
          ∨ (unicode_character ≥ 0x7F ∧ unicode_character ≤ 0x9F) then
        let characters := sprintf_escape unicode_character
        let size := size_t_sub escaped_value_string_size escaped.index
        let print_count := characters.length
        info_handle_name_value_fprint_loop U value_string value_string_length
          escaped_value_string_size fuel decoded.2.2
          { index := escaped.index + print_count,
            text := escaped.text ++ characters.take (size - 1),
            writes := escaped.writes ++ [(escaped.index, min (print_count + 1) size)] }
      else
        let encoded := U.unicode_character_copy_to_utf8 unicode_character
          escaped_value_string_size escaped.index
        if encoded.1 ≠ 1 then
          some (-1, escaped)
        else
          info_handle_name_value_fprint_loop U value_string value_string_length
            escaped_value_string_size fuel decoded.2.2
            { index := encoded.2,
              text := escaped.text ++ [unicode_character],
              writes := escaped.writes ++ [(escaped.index, encoded.2 - escaped.index)] }
    else
      some (1, escaped)

/-- What a call of `info_handle_name_value_fprint` leaves behind: the return
value, the stream printed to and the characters printed, the length of the
escaped value string, the size of its buffer and the writes into the buffer. -/
structure name_value_fprint_result where
  result : Int
  stream : Option Nat
  printed : List Nat
  escaped_value_string_index : Nat
  escaped_value_string_size : Nat
  writes : List (Nat × Nat)
deriving DecidableEq, Repr

/-- `info_handle_name_value_fprint` in a build without
`HAVE_WIDE_SYSTEM_CHARACTER`, where `sizeof( system_character_t )` is 1.
`memory_allocate_ok` tells whether `memory_allocate` returns a buffer. The
loop gets `value_string_length` iterations, which is all it can use when each
decoding consumes a unit; the result is `none` when it would use more.
`fprintf` with `%s` prints the escaped value string up to its first 0. -/
def info_handle_name_value_fprint {V : Type} (U : libuna) (SSIZE_MAX : Nat)
    (memory_allocate_ok : Bool) (info_handle : Option (info_handle_t V))
    (value_string : Option (List Nat)) (value_string_length : Nat) :
    Option name_value_fprint_result :=
  match info_handle with
  | none =>
    some { result := -1, stream := none, printed := [], escaped_value_string_index := 0,
           escaped_value_string_size := 0, writes := [] }
  | some h =>
    match value_string with
    | none =>
      some { result := -1, stream := none, printed := [], escaped_value_string_index := 0,
             escaped_value_string_size := 0, writes := [] }
    | some s =>
      if value_string_length > (SSIZE_MAX - 1) / (1 * 4) then
        some { result := -1, stream := none, printed := [], escaped_value_string_index := 0,
               escaped_value_string_size := 0, writes := [] }
      else
        let escaped_value_string_size := value_string_length * 4 + 1
        if memory_allocate_ok = false then
          some { result := -1, stream := none, printed := [], escaped_value_string_index := 0,
                 escaped_value_string_size := escaped_value_string_size, writes := [] }
        else
          match info_handle_name_value_fprint_loop U s value_string_length
              escaped_value_string_size value_string_length 0
              { index := 0, text := [], writes := [] } with
          | none => none
          | some (loop_result, escaped) =>
            if loop_result ≠ 1 then
              some { result := -1, stream := none, printed := [],
                     escaped_value_string_index := escaped.index,
                     escaped_value_string_size := escaped_value_string_size,
                     writes := escaped.writes }
            else
              some { result := 1,
                     stream := if h.bodyfile_stream ≠ none then h.bodyfile_stream
                               else h.notify_stream,
                     printed := escaped.text.takeWhile (fun c => c ≠ 0),
                     escaped_value_string_index := escaped.index,
                     escaped_value_string_size := escaped_value_string_size,
                     writes := escaped.writes ++ [(escaped.index, 1)] }

/-- Whether the character is one that C19 names: U+0000 to U+001F or U+007F to
U+009F. -/
def is_control_character (c : Nat) : Prop :=
  c ≤ 0x1F ∨ (0x7F ≤ c ∧ c ≤ 0x9F)

instance (c : Nat) : Decidable (is_control_character c) := by
  unfold is_control_character
  infer_instance

/-- The lowercase hexadecimal digit of a number below 16, as a character. -/
def hexadecimal_digit (n : Nat) : Nat :=
  if n < 10 then 0x30 + n else 0x61 + (n - 10)

/-- The text `e(c)` of C19: backslash, `x` and the two lowercase hexadecimal
digits of `c` for a control character, `c` itself otherwise. -/
def escape_character (c : Nat) : List Nat :=
  if is_control_character c then
    [0x5C, 0x78, hexadecimal_digit (c / 16), hexadecimal_digit (c % 16)]
  else
    [c]

/-- The sequence of Unicode characters of a value string: the characters that
`unicode_character_copy_from_utf8` decodes one after the other from index
`value_string_index` on, `none` when a decoding fails or more than `fuel`
characters are decoded. -/
def decode_value_string (U : libuna) (value_string : List Nat) (value_string_length : Nat) :
    Nat → Nat → Option (List Nat)
  | 0, value_string_index =>
    if value_string_index < value_string_length then none else some []
  | fuel + 1, value_string_index =>
    if value_string_index < value_string_length then
      let decoded := U.unicode_character_copy_from_utf8 value_string value_string_length
        value_string_index
      if decoded.1 ≠ 1 then
        none
      else
        (decode_value_string U value_string value_string_length fuel decoded.2.2).map
          (fun characters => decoded.2.1 :: characters)
    else
      some []

/-- A UTF-8 codec for sequences of one and two bytes, for the examples:
decoding fails on any other lead byte, encoding stores 1 to 4 units when they
fit `utf8_string_size`. -/
def sample_libuna : libuna where
  unicode_character_copy_from_utf8 s size i :=
    if i < size then
      if char_at s i < 0x80 then
        (1, char_at s i, i + 1)
      else if 0xC2 ≤ char_at s i ∧ char_at s i ≤ 0xDF ∧ i + 1 < size
          ∧ 0x80 ≤ char_at s (i + 1) ∧ char_at s (i + 1) ≤ 0xBF then
        (1, (char_at s i - 0xC0) * 64 + (char_at s (i + 1) - 0x80), i + 2)
      else
        (-1, 0, i)
    else
      (-1, 0, i)
  unicode_character_copy_to_utf8 c size i :=
    let units := if c < 0x80 then 1 else if c < 0x800 then 2 else if c < 0x10000 then 3 else 4
    if i + units ≤ size then (1, i + units) else (-1, i)

/-- The value string `a`, line feed, U+0085 (bytes 0xC2 0x85), `b`. -/
def sample_value_string : List Nat :=
  [0x61, 0x0A, 0xC2, 0x85, 0x62]

/-! ## The file mode string of info_handle_file_entry_value_with_name_fprint -/

/-- The array `file_mode_string` of `info_handle_file_entry_value_with_name_fprint`
after lines 1276 to 1340: 11 characters, initially ten `-` and a terminating 0
(line 1131), in which the nine permission tests and the `switch` on the file
type store a letter each. `file_mode` is a `uint16_t`. -/
def file_mode_string (file_mode : Nat) : List Char :=
  let s := ['-', '-', '-', '-', '-', '-', '-', '-', '-', '-', Char.ofNat 0]
  let s := if file_mode &&& 0x0001 ≠ 0 then s.set 9 'x' else s
  let s := if file_mode &&& 0x0002 ≠ 0 then s.set 8 'w' else s
  let s := if file_mode &&& 0x0004 ≠ 0 then s.set 7 'r' else s
  let s := if file_mode &&& 0x0008 ≠ 0 then s.set 6 'x' else s
  let s := if file_mode &&& 0x0010 ≠ 0 then s.set 5 'w' else s
  let s := if file_mode &&& 0x0020 ≠ 0 then s.set 4 'r' else s
  let s := if file_mode &&& 0x0040 ≠ 0 then s.set 3 'x' else s
  let s := if file_mode &&& 0x0080 ≠ 0 then s.set 2 'w' else s
  let s := if file_mode &&& 0x0100 ≠ 0 then s.set 1 'r' else s
  match file_mode &&& 0xf000 with
  | 0x1000 => s.set 0 'p'
  | 0x2000 => s.set 0 'c'
  | 0x4000 => s.set 0 'd'
  | 0x6000 => s.set 0 'b'
  | 0xa000 => s.set 0 'l'
  | 0xc000 => s.set 0 's'
  | _ => s

/-- The string that a `char` array holds: its characters before the first 0. -/
def c_string (characters : List Char) : List Char :=
  characters.takeWhile (fun c => c ≠ Char.ofNat 0)

/-- The letter of a permission bit in the mode string: `letter` when the bit
`mask` of `file_mode` is set, `-` when it is clear. -/
def permission_character (file_mode mask : Nat) (letter : Char) : Char :=
  if file_mode &&& mask ≠ 0 then letter else '-'

/-- The letter of the file type in the mode string, as C22 lists it. -/
def file_type_character (file_mode : Nat) : Char :=
  if file_mode &&& 0xf000 = 0x1000 then 'p'
  else if file_mode &&& 0xf000 = 0x2000 then 'c'
  else if file_mode &&& 0xf000 = 0x4000 then 'd'
  else if file_mode &&& 0xf000 = 0x6000 then 'b'
  else if file_mode &&& 0xf000 = 0xa000 then 'l'
  else if file_mode &&& 0xf000 = 0xc000 then 's'
  else '-'

/-! ## libfsxfs_debug_print_fork_type -/

/-- `libfsxfs_debug_print_fork_type` (libfsxfs_debug.c, in a build with
`HAVE_DEBUG_OUTPUT`). `fork_type` is a `uint8_t`. -/
def libfsxfs_debug_print_fork_type (fork_type : uint8_t) : String :=
  match fork_type.val with
  | 0 => "XFS_DINODE_FMT_DEV"
  | 1 => "XFS_DINODE_FMT_LOCAL"
  | 2 => "XFS_DINODE_FMT_EXTENTS"
  | 3 => "XFS_DINODE_FMT_BTREE"
  | 4 => "XFS_DINODE_FMT_UUID"
  | 5 => "XFS_DINODE_FMT_RMAP"
  | _ => "Unknown"

theorem byte_at_lt (data : List uint8_t) (i : Nat) : byte_at data i < 256 := by
  unfold byte_at
  exact (data.getD i 0).isLt

theorem uint16_big_endian_lt (data : List uint8_t) (offset : Nat) :
    uint16_big_endian data offset < 2 ^ 16 := by
  have h0 := byte_at_lt data offset
  have h1 := byte_at_lt data (offset + 1)
  unfold uint16_big_endian
  omega

theorem uint32_big_endian_lt (data : List uint8_t) (offset : Nat) :
    uint32_big_endian data offset < 2 ^ 32 := by
  have h0 := byte_at_lt data offset
  have h1 := byte_at_lt data (offset + 1)
  have h2 := byte_at_lt data (offset + 2)
  have h3 := byte_at_lt data (offset + 3)
  unfold uint32_big_endian
  omega

theorem copy_to_uint16_eq (data : List uint8_t) (offset : Nat) :
    byte_stream_copy_to_uint16_big_endian 16 data offset = uint16_big_endian data offset := by
  have h := uint16_big_endian_lt data offset
  unfold byte_stream_copy_to_uint16_big_endian
  unfold uint16_big_endian at *
  omega

theorem copy_to_uint32_eq (data : List uint8_t) (offset : Nat) :
    byte_stream_copy_to_uint32_big_endian 32 data offset = uint32_big_endian data offset := by
  have h := uint32_big_endian_lt data offset
  unfold byte_stream_copy_to_uint32_big_endian
  unfold uint32_big_endian at *
  omega

theorem copy_to_uint32_wide_eq (data : List uint8_t) (offset : Nat) :
    byte_stream_copy_to_uint32_big_endian 64 data offset = uint32_big_endian data offset := by
  have h := uint32_big_endian_lt data offset
  unfold byte_stream_copy_to_uint32_big_endian
  unfold uint32_big_endian at *
  omega

/-- No step of the time computation leaves the range of `int64_t`. -/
theorem read_time_eq (data : List uint8_t) (s n : Nat) :
    read_time data s n
      = (uint32_big_endian data s : Int) * 1000000000 + (uint32_big_endian data n : Int) := by
  have hs := uint32_big_endian_lt data s
  have hn := uint32_big_endian_lt data n
  unfold read_time
  simp only [copy_to_uint32_eq, copy_to_uint32_wide_eq]
  unfold int64_wrap
  omega


/-! ## Rejections of libfsxfs_inode_read_data -/

theorem byte_at_eq_of_getElem? (d : List uint8_t) (i : Nat) (b : uint8_t)
    (h : byte_at d i = b.val) (hb : b ≠ 0) : d[i]? = some b := by
  unfold byte_at at h
  rw [List.getD_eq_getElem?_getD] at h
  cases hd : d[i]? with
  | none =>
    rw [hd] at h
    exact absurd (Fin.ext h.symm) hb
  | some x =>
    rw [hd] at h
    exact congrArg some (Fin.ext h)

theorem signature_of_byte_at (d : List uint8_t)
    (h : byte_at d offset_signature = 0x49 ∧ byte_at d (offset_signature + 1) = 0x4E) :
    d[0]? = some 0x49 ∧ d[1]? = some 0x4E :=
  ⟨byte_at_eq_of_getElem? d 0 0x49 h.1 (by decide),
    byte_at_eq_of_getElem? d 1 0x4E h.2 (by decide)⟩

/-- C2: whatever the inode record, the buffer and the data size, a buffer whose
first two bytes are not the ASCII bytes `I` (0x49) and `N` (0x4E) makes
`libfsxfs_inode_read_data` return -1. -/
theorem read_data_rejects_wrong_signature (K : header_constants)
    (inode : Option libfsxfs_inode_t) (d : List uint8_t) (data_size : Nat)
    (h : ¬ (d[0]? = some 0x49 ∧ d[1]? = some 0x4E)) :
    (libfsxfs_inode_read_data K inode (some d) data_size).1 = -1 := by
  unfold libfsxfs_inode_read_data
  cases inode with
  | none => rfl
  | some ino =>
    simp only []
    split_ifs <;> first
      | rfl
      | exact absurd (signature_of_byte_at d (by assumption)) h

/-- C2 at a 256-byte buffer that starts with `XN`. -/
theorem read_data_rejects_wrong_signature_witness :
    ¬ ((buffer_of [0x58, 0x4E, 0x81, 0xA4, 3] 0 256)[0]? = some 0x49
        ∧ (buffer_of [0x58, 0x4E, 0x81, 0xA4, 3] 0 256)[1]? = some 0x4E)
      ∧ (libfsxfs_inode_read_data xfs_constants (some libfsxfs_inode_zero)
          (some (buffer_of [0x58, 0x4E, 0x81, 0xA4, 3] 0 256)) 256).1 = -1 :=
  ⟨by decide, read_data_rejects_wrong_signature xfs_constants (some libfsxfs_inode_zero)
    (buffer_of [0x58, 0x4E, 0x81, 0xA4, 3] 0 256) 256 (by decide)⟩

/-- C3: a buffer whose format version byte (byte 4 of the header) is not 1, 2
or 3 makes `libfsxfs_inode_read_data` return -1, whatever the inode record and
the data size. -/
theorem read_data_rejects_unsupported_format_version (K : header_constants)
    (inode : Option libfsxfs_inode_t) (d : List uint8_t) (data_size : Nat)
    (h : byte_at d offset_format_version ≠ 1 ∧ byte_at d offset_format_version ≠ 2
      ∧ byte_at d offset_format_version ≠ 3) :
    (libfsxfs_inode_read_data K inode (some d) data_size).1 = -1 := by
  unfold libfsxfs_inode_read_data
  cases inode with
  | none => rfl
  | some ino =>
    simp only []
    split_ifs <;> rfl

/-- C3 at a 256-byte buffer with signature `IN` and format version 7. -/
theorem read_data_rejects_unsupported_format_version_witness :
    (byte_at (buffer_of (sample_header 7) 0 256) offset_format_version ≠ 1
        ∧ byte_at (buffer_of (sample_header 7) 0 256) offset_format_version ≠ 2
        ∧ byte_at (buffer_of (sample_header 7) 0 256) offset_format_version ≠ 3)
      ∧ (libfsxfs_inode_read_data xfs_constants (some libfsxfs_inode_zero)
          (some (buffer_of (sample_header 7) 0 256)) 256).1 = -1 :=
  ⟨by decide, read_data_rejects_unsupported_format_version xfs_constants
    (some libfsxfs_inode_zero) (buffer_of (sample_header 7) 0 256) 256 (by decide)⟩


/-! ## The decoded fields -/

/-- A call that returns 1 leaves the record `read_data_fields` builds from the
record before the call. -/
theorem read_data_success (K : header_constants) (inode : Option libfsxfs_inode_t)
    (d : List uint8_t) (data_size : Nat)
    (h : (libfsxfs_inode_read_data K inode (some d) data_size).1 = 1) :
    ∃ ino, inode = some ino
      ∧ (libfsxfs_inode_read_data K inode (some d) data_size).2 = some (read_data_fields ino d) := by
  unfold libfsxfs_inode_read_data at h ⊢
  cases inode with
  | none => simp at h
  | some ino =>
    refine ⟨ino, rfl, ?_⟩
    simp only [] at h ⊢
    split_ifs at h ⊢ <;> first
      | rfl
      | (exfalso; simp at h)

/-- A call that returns 1 has seen format version 1, 2 or 3. -/
theorem format_version_of_success (K : header_constants) (inode : Option libfsxfs_inode_t)
    (d : List uint8_t) (data_size : Nat)
    (h : (libfsxfs_inode_read_data K inode (some d) data_size).1 = 1) :
    byte_at d 4 = 1 ∨ byte_at d 4 = 2 ∨ byte_at d 4 = 3 := by
  unfold libfsxfs_inode_read_data at h
  cases inode with
  | none => simp at h
  | some ino =>
    simp only [offset_format_version] at h
    split_ifs at h <;> omega

/-- C4: on every buffer on which `libfsxfs_inode_read_data` returns 1, the
access, modification and inode change time of the record are seconds ×
1000000000 + nanoseconds of the 32-bit big-endian pairs at header bytes 32–39,
40–47 and 48–55. -/
theorem read_data_times (K : header_constants) (inode : Option libfsxfs_inode_t)
    (d : List uint8_t) (data_size : Nat)
    (h : (libfsxfs_inode_read_data K inode (some d) data_size).1 = 1) :
    ∃ ino, (libfsxfs_inode_read_data K inode (some d) data_size).2 = some ino
      ∧ ino.access_time
          = (uint32_big_endian d 32 : Int) * 1000000000 + (uint32_big_endian d 36 : Int)
      ∧ ino.modification_time
          = (uint32_big_endian d 40 : Int) * 1000000000 + (uint32_big_endian d 44 : Int)
      ∧ ino.inode_change_time
          = (uint32_big_endian d 48 : Int) * 1000000000 + (uint32_big_endian d 52 : Int) := by
  obtain ⟨ino, _, h2⟩ := read_data_success K inode d data_size h
  refine ⟨read_data_fields ino d, h2, ?_, ?_, ?_⟩
  · exact read_time_eq d 32 36
  · exact read_time_eq d 40 44
  · exact read_time_eq d 48 52

/-- C4 at a version 2 header with times 1 s + 2 ns, 3 s + 4 ns and 5 s + 6 ns. -/
theorem read_data_times_witness :
    (libfsxfs_inode_read_data xfs_constants (some libfsxfs_inode_zero)
        (some (buffer_of (sample_header 2) 0 256)) 256).1 = 1
      ∧ ∃ ino, (libfsxfs_inode_read_data xfs_constants (some libfsxfs_inode_zero)
          (some (buffer_of (sample_header 2) 0 256)) 256).2 = some ino
        ∧ ino.access_time
            = (uint32_big_endian (buffer_of (sample_header 2) 0 256) 32 : Int) * 1000000000
              + (uint32_big_endian (buffer_of (sample_header 2) 0 256) 36 : Int)
        ∧ ino.modification_time
            = (uint32_big_endian (buffer_of (sample_header 2) 0 256) 40 : Int) * 1000000000
              + (uint32_big_endian (buffer_of (sample_header 2) 0 256) 44 : Int)
        ∧ ino.inode_change_time
            = (uint32_big_endian (buffer_of (sample_header 2) 0 256) 48 : Int) * 1000000000
              + (uint32_big_endian (buffer_of (sample_header 2) 0 256) 52 : Int) :=
  ⟨by decide, read_data_times xfs_constants (some libfsxfs_inode_zero)
    (buffer_of (sample_header 2) 0 256) 256 (by decide)⟩

/-- C5: on every buffer on which `libfsxfs_inode_read_data` returns 1, the
format version is 1, 2 or 3 and, whichever of them it is, the file mode of the
record is the 16-bit big-endian value of header bytes 2–3, the owner identifier
the 32-bit big-endian value of bytes 8–11 and the group identifier the 32-bit
big-endian value of bytes 12–15. -/
theorem read_data_mode_and_identifiers (K : header_constants)
    (inode : Option libfsxfs_inode_t) (d : List uint8_t) (data_size : Nat)
    (h : (libfsxfs_inode_read_data K inode (some d) data_size).1 = 1) :
    (byte_at d 4 = 1 ∨ byte_at d 4 = 2 ∨ byte_at d 4 = 3)
      ∧ ∃ ino, (libfsxfs_inode_read_data K inode (some d) data_size).2 = some ino
        ∧ ino.file_mode = uint16_big_endian d 2
        ∧ ino.owner_identifier = uint32_big_endian d 8
        ∧ ino.group_identifier = uint32_big_endian d 12 := by
  obtain ⟨ino, _, h2⟩ := read_data_success K inode d data_size h
  refine ⟨?_, read_data_fields ino d, h2, ?_, ?_, ?_⟩
  · exact format_version_of_success K inode d data_size h
  · exact copy_to_uint16_eq d 2
  · exact copy_to_uint32_eq d 8
  · exact copy_to_uint32_eq d 12

/-- C5 at a version 1 header with file mode 0x81a4, owner 1000 and group 100. -/
theorem read_data_mode_and_identifiers_witness :
    (libfsxfs_inode_read_data xfs_constants (some libfsxfs_inode_zero)
        (some (buffer_of (sample_header 1) 0 256)) 256).1 = 1
      ∧ (byte_at (buffer_of (sample_header 1) 0 256) 4 = 1
          ∨ byte_at (buffer_of (sample_header 1) 0 256) 4 = 2
          ∨ byte_at (buffer_of (sample_header 1) 0 256) 4 = 3)
      ∧ ∃ ino, (libfsxfs_inode_read_data xfs_constants (some libfsxfs_inode_zero)
          (some (buffer_of (sample_header 1) 0 256)) 256).2 = some ino
        ∧ ino.file_mode = uint16_big_endian (buffer_of (sample_header 1) 0 256) 2
        ∧ ino.owner_identifier = uint32_big_endian (buffer_of (sample_header 1) 0 256) 8
        ∧ ino.group_identifier = uint32_big_endian (buffer_of (sample_header 1) 0 256) 12 :=
  ⟨by decide, read_data_mode_and_identifiers xfs_constants (some libfsxfs_inode_zero)
    (buffer_of (sample_header 1) 0 256) 256 (by decide)⟩


/-! ## The creation time -/

/-- C6, refuted as stated: on a well-formed version 3 buffer of 256 bytes whose
creation time fields (header bytes 144–151) hold 0x01010101 seconds and
0x01010101 nanoseconds, `libfsxfs_inode_read_data` returns 1 on a zeroed record
and the creation time of the record is still 0, not 16843009016843009. -/
theorem read_data_creation_time_counterexample :
    byte_at (buffer_of (sample_header 3) 1 256) offset_signature = 0x49
      ∧ byte_at (buffer_of (sample_header 3) 1 256) (offset_signature + 1) = 0x4E
      ∧ byte_at (buffer_of (sample_header 3) 1 256) offset_format_version = 3
      ∧ xfs_constants.sizeof_fsxfs_inode_v3_t ≤ 256
      ∧ (libfsxfs_inode_read_data xfs_constants (some libfsxfs_inode_zero)
          (some (buffer_of (sample_header 3) 1 256)) 256).1 = 1
      ∧ Option.map libfsxfs_inode_t.creation_time
          (libfsxfs_inode_read_data xfs_constants (some libfsxfs_inode_zero)
            (some (buffer_of (sample_header 3) 1 256)) 256).2 = some 0
      ∧ (uint32_big_endian (buffer_of (sample_header 3) 1 256) offset_creation_time : Int)
            * 1000000000
          + (uint32_big_endian (buffer_of (sample_header 3) 1 256)
              offset_creation_time_nano_seconds : Int) = 16843009016843009
      ∧ Option.map libfsxfs_inode_t.creation_time
          (libfsxfs_inode_read_data xfs_constants (some libfsxfs_inode_zero)
            (some (buffer_of (sample_header 3) 1 256)) 256).2
        ≠ some ((uint32_big_endian (buffer_of (sample_header 3) 1 256)
              offset_creation_time : Int) * 1000000000
            + (uint32_big_endian (buffer_of (sample_header 3) 1 256)
              offset_creation_time_nano_seconds : Int)) := by
  decide

/-- C6, amended: on every buffer on which `libfsxfs_inode_read_data` returns 1,
whatever its format version, the creation time of the record is the one it had
before the call; the creation time fields of a version 3 header are not
decoded. -/
theorem read_data_keeps_creation_time (K : header_constants)
    (inode : Option libfsxfs_inode_t) (d : List uint8_t) (data_size : Nat)
    (h : (libfsxfs_inode_read_data K inode (some d) data_size).1 = 1) :
    ∃ before after, inode = some before
      ∧ (libfsxfs_inode_read_data K inode (some d) data_size).2 = some after
      ∧ after.creation_time = before.creation_time := by
  obtain ⟨ino, h1, h2⟩ := read_data_success K inode d data_size h
  exact ⟨ino, read_data_fields ino d, h1, h2, rfl⟩

/-- C6, amended, at a version 3 buffer with non-zero creation time fields and a
zeroed record: the creation time stays 0. -/
theorem read_data_keeps_creation_time_witness :
    (libfsxfs_inode_read_data xfs_constants (some libfsxfs_inode_zero)
        (some (buffer_of (sample_header 3) 1 256)) 256).1 = 1
      ∧ ∃ before after, some libfsxfs_inode_zero = some before
        ∧ (libfsxfs_inode_read_data xfs_constants (some libfsxfs_inode_zero)
            (some (buffer_of (sample_header 3) 1 256)) 256).2 = some after
        ∧ after.creation_time = before.creation_time :=
  ⟨by decide, read_data_keeps_creation_time xfs_constants (some libfsxfs_inode_zero)
    (buffer_of (sample_header 3) 1 256) 256 (by decide)⟩

/-! ## Acceptance -/

/-- C7: for a non-NULL inode record and a buffer with signature `IN`, format
version 1, 2 or 3 and a data size of at least the header size of that version
and at most `SSIZE_MAX`, `libfsxfs_inode_read_data` returns 1, whatever the
other bytes of the buffer are. The version 3 header is taken to be no smaller
than the version 1 header (`hK`). -/
theorem read_data_accepts_well_formed (K : header_constants) (ino : libfsxfs_inode_t)
    (d : List uint8_t) (data_size : Nat)
    (hK : K.sizeof_fsxfs_inode_v1_t ≤ K.sizeof_fsxfs_inode_v3_t)
    (hsig : byte_at d offset_signature = 0x49 ∧ byte_at d (offset_signature + 1) = 0x4E)
    (hv : byte_at d offset_format_version = 1 ∨ byte_at d offset_format_version = 2
      ∨ byte_at d offset_format_version = 3)
    (hmin : if byte_at d offset_format_version = 3
      then K.sizeof_fsxfs_inode_v3_t ≤ data_size
      else K.sizeof_fsxfs_inode_v1_t ≤ data_size)
    (hmax : data_size ≤ K.SSIZE_MAX) :
    (libfsxfs_inode_read_data K (some ino) (some d) data_size).1 = 1 := by
  unfold libfsxfs_inode_read_data
  simp only []
  split_ifs at hmin with h3
  · rw [if_neg (by omega), if_neg (by omega), if_neg (not_not.mpr hsig), if_neg (by omega)]
  · rw [if_neg (by omega), if_neg (by omega), if_neg (not_not.mpr hsig), if_neg (by omega)]

/-- C7 at a 256-byte version 3 buffer whose bytes after the times are all
0xff. -/
theorem read_data_accepts_well_formed_witness :
    (xfs_constants.sizeof_fsxfs_inode_v1_t ≤ xfs_constants.sizeof_fsxfs_inode_v3_t
        ∧ (byte_at (buffer_of (sample_header 3) 0xFF 256) offset_signature = 0x49
          ∧ byte_at (buffer_of (sample_header 3) 0xFF 256) (offset_signature + 1) = 0x4E)
        ∧ byte_at (buffer_of (sample_header 3) 0xFF 256) offset_format_version = 3
        ∧ xfs_constants.sizeof_fsxfs_inode_v3_t ≤ 256
        ∧ 256 ≤ xfs_constants.SSIZE_MAX)
      ∧ (libfsxfs_inode_read_data xfs_constants (some libfsxfs_inode_zero)
          (some (buffer_of (sample_header 3) 0xFF 256)) 256).1 = 1 :=
  ⟨by decide, read_data_accepts_well_formed xfs_constants libfsxfs_inode_zero
    (buffer_of (sample_header 3) 0xFF 256) 256 (by decide) (by decide) (by decide)
    (by decide) (by decide)⟩


/-! ## Bounds of the reads -/

theorem byte_at_congr_of_take (d d' : List uint8_t) (n i : Nat)
    (h : d.take n = d'.take n) (hi : i < n) : byte_at d i = byte_at d' i := by
  have h1 : d[i]? = d'[i]? := by
    rw [← List.getElem?_take_of_lt hi, h, List.getElem?_take_of_lt hi]
  unfold byte_at
  rw [List.getD_eq_getElem?_getD, List.getD_eq_getElem?_getD, h1]

theorem uint32_congr_of_take (d d' : List uint8_t) (n o w : Nat)
    (h : d.take n = d'.take n) (ho : o + 4 ≤ n) :
    byte_stream_copy_to_uint32_big_endian w d o
      = byte_stream_copy_to_uint32_big_endian w d' o := by
  unfold byte_stream_copy_to_uint32_big_endian
  rw [byte_at_congr_of_take d d' n o h (by omega),
    byte_at_congr_of_take d d' n (o + 1) h (by omega),
    byte_at_congr_of_take d d' n (o + 2) h (by omega),
    byte_at_congr_of_take d d' n (o + 3) h (by omega)]

theorem uint16_congr_of_take (d d' : List uint8_t) (n o w : Nat)
    (h : d.take n = d'.take n) (ho : o + 2 ≤ n) :
    byte_stream_copy_to_uint16_big_endian w d o
      = byte_stream_copy_to_uint16_big_endian w d' o := by
  unfold byte_stream_copy_to_uint16_big_endian
  rw [byte_at_congr_of_take d d' n o h (by omega),
    byte_at_congr_of_take d d' n (o + 1) h (by omega)]

theorem read_time_congr_of_take (d d' : List uint8_t) (n s o : Nat)
    (h : d.take n = d'.take n) (hs : s + 4 ≤ n) (ho : o + 4 ≤ n) :
    read_time d s o = read_time d' s o := by
  unfold read_time
  rw [uint32_congr_of_take d d' n s 64 h hs, uint32_congr_of_take d d' n o 32 h ho]

theorem read_data_fields_congr_of_take (ino : libfsxfs_inode_t) (d d' : List uint8_t)
    (n : Nat) (h : d.take n = d'.take n) (hn : offset_end_of_times ≤ n) :
    read_data_fields ino d = read_data_fields ino d' := by
  unfold offset_end_of_times at hn
  unfold read_data_fields offset_file_mode offset_owner_identifier offset_group_identifier
    offset_access_time offset_access_time_nano_seconds offset_modification_time
    offset_modification_time_nano_seconds offset_inode_change_time
    offset_inode_change_time_nano_seconds
  rw [uint16_congr_of_take d d' n 2 16 h (by omega),
    uint32_congr_of_take d d' n 8 32 h (by omega),
    uint32_congr_of_take d d' n 12 32 h (by omega),
    read_time_congr_of_take d d' n 32 36 h (by omega) (by omega),
    read_time_congr_of_take d d' n 40 44 h (by omega) (by omega),
    read_time_congr_of_take d d' n 48 52 h (by omega) (by omega)]

/-- C8: `libfsxfs_inode_read_data` returns -1 when `data_size` is smaller than
the version 1 header size or larger than `SSIZE_MAX`, and when the format
version byte is 3 and `data_size` is smaller than the version 3 header size.
Every index of `data` that the call reads is smaller than `data_size`, and the
outcome of the call is the same for any two buffers that agree on their first
`data_size` bytes. The version 1 header is taken to hold the fields the
decoder reads, the last of which ends at byte 56 (`hK`). -/
theorem read_data_stays_in_bounds (K : header_constants) (inode : Option libfsxfs_inode_t)
    (d : List uint8_t) (data_size : Nat)
    (hK : offset_end_of_times ≤ K.sizeof_fsxfs_inode_v1_t) :
    ((data_size < K.sizeof_fsxfs_inode_v1_t ∨ data_size > K.SSIZE_MAX) →
        (libfsxfs_inode_read_data K inode (some d) data_size).1 = -1)
      ∧ ((byte_at d offset_format_version = 3 ∧ data_size < K.sizeof_fsxfs_inode_v3_t) →
        (libfsxfs_inode_read_data K inode (some d) data_size).1 = -1)
      ∧ (∀ i ∈ libfsxfs_inode_read_data_reads K inode (some d) data_size, i < data_size)
      ∧ (∀ d' : List uint8_t, d.take data_size = d'.take data_size →
        libfsxfs_inode_read_data K inode (some d') data_size
          = libfsxfs_inode_read_data K inode (some d) data_size) := by
  unfold offset_end_of_times at hK
  refine ⟨?_, ?_, ?_, ?_⟩
  · intro h
    unfold libfsxfs_inode_read_data
    cases inode with
    | none => rfl
    | some ino => simp only [if_pos h]
  · intro h
    unfold libfsxfs_inode_read_data
    cases inode with
    | none => rfl
    | some ino =>
      simp only []
      split_ifs <;> rfl
  · intro i hi
    unfold libfsxfs_inode_read_data_reads at hi
    cases inode with
    | none => simp at hi
    | some ino =>
      simp only [] at hi
      unfold offset_format_version offset_signature offset_file_mode offset_owner_identifier
        offset_group_identifier offset_access_time offset_modification_time
        offset_inode_change_time at hi
      split_ifs at hi with h1 h2 h3
      · simp at hi
      · simp at hi
        omega
      · simp at hi
        omega
      · simp [List.mem_range'] at hi
        omega
  · intro d' hd
    have h4 : data_size < K.sizeof_fsxfs_inode_v1_t ∨
        byte_at d' offset_format_version = byte_at d offset_format_version := by
      by_cases hlt : data_size < K.sizeof_fsxfs_inode_v1_t
      · exact Or.inl hlt
      · exact Or.inr (byte_at_congr_of_take d' d data_size _ hd.symm
          (by unfold offset_format_version; omega))
    unfold libfsxfs_inode_read_data
    cases inode with
    | none => rfl
    | some ino =>
      simp only []
      by_cases h1 : data_size < K.sizeof_fsxfs_inode_v1_t ∨ data_size > K.SSIZE_MAX
      · rw [if_pos h1, if_pos h1]
      · rw [if_neg h1, if_neg h1]
        have hn : 56 ≤ data_size := by omega
        rw [byte_at_congr_of_take d' d data_size offset_format_version hd.symm
            (by unfold offset_format_version; omega),
          byte_at_congr_of_take d' d data_size offset_signature hd.symm
            (by unfold offset_signature; omega),
          byte_at_congr_of_take d' d data_size (offset_signature + 1) hd.symm
            (by unfold offset_signature; omega),
          read_data_fields_congr_of_take ino d' d data_size hd.symm
            (by unfold offset_end_of_times; omega)]

/-- C8 at a 100-byte buffer with format version 3: the call returns -1. -/
theorem read_data_stays_in_bounds_witness :
    offset_end_of_times ≤ xfs_constants.sizeof_fsxfs_inode_v1_t
      ∧ (byte_at (buffer_of (sample_header 3) 0 100) offset_format_version = 3
        ∧ 100 < xfs_constants.sizeof_fsxfs_inode_v3_t)
      ∧ (libfsxfs_inode_read_data xfs_constants (some libfsxfs_inode_zero)
          (some (buffer_of (sample_header 3) 0 100)) 100).1 = -1 :=
  ⟨by decide, by decide,
    (read_data_stays_in_bounds xfs_constants (some libfsxfs_inode_zero)
      (buffer_of (sample_header 3) 0 100) 100 (by decide)).2.1 (by decide)⟩


/-! ## Reading through a file IO handle -/

/-- C1, evaluated at three failing inputs: `libfsxfs_inode_read_file_io_handle`
returns 1, not -1, when the seek fails (negative offset), when the read is
short (256 bytes asked of a 100-byte image) and when
`libfsxfs_inode_read_data` rejects the bytes read (256 bytes 0xff, no
signature); the function comment promises -1 on error, the label `on_error`
ends in `return( 1 )`. -/
theorem read_file_io_handle_returns_1_on_error :
    (mem_bfio.seek_offset ⟨sample_image, 0⟩ (-1)).1 = -1
      ∧ (libfsxfs_inode_read_file_io_handle xfs_constants mem_bfio true
          (some libfsxfs_inode_zero) ⟨sample_image, 0⟩ (-1) 256).result = 1
      ∧ (mem_bfio.read_buffer ⟨buffer_of (sample_header 2) 0 100, 0⟩ 256).1 = 100
      ∧ (libfsxfs_inode_read_file_io_handle xfs_constants mem_bfio true
          (some libfsxfs_inode_zero) ⟨buffer_of (sample_header 2) 0 100, 0⟩ 0 256).result = 1
      ∧ (libfsxfs_inode_read_data xfs_constants (some libfsxfs_inode_zero)
          (some (List.replicate 256 0xFF)) 256).1 = -1
      ∧ (libfsxfs_inode_read_file_io_handle xfs_constants mem_bfio true
          (some libfsxfs_inode_zero) ⟨sample_image, 0⟩ 0 256).result = 1 := by
  decide

/-- C9: for every inode size other than 256, 512, 1024 and 2048,
`libfsxfs_inode_read_file_io_handle` returns -1, makes no seek and no read on
the file IO handle, whose state stays as it was, and leaves the inode record
as it was. -/
theorem read_file_io_handle_rejects_unsupported_inode_size {H : Type}
    (K : header_constants) (B : libbfio H) (memory_allocate_ok : Bool)
    (inode : Option libfsxfs_inode_t) (file_io_handle : H) (file_offset : Int)
    (inode_size : Nat)
    (h : inode_size ≠ 256 ∧ inode_size ≠ 512 ∧ inode_size ≠ 1024 ∧ inode_size ≠ 2048) :
    (libfsxfs_inode_read_file_io_handle K B memory_allocate_ok inode file_io_handle
        file_offset inode_size).result = -1
      ∧ (libfsxfs_inode_read_file_io_handle K B memory_allocate_ok inode file_io_handle
        file_offset inode_size).calls = []
      ∧ (libfsxfs_inode_read_file_io_handle K B memory_allocate_ok inode file_io_handle
        file_offset inode_size).file_io_handle = file_io_handle
      ∧ (libfsxfs_inode_read_file_io_handle K B memory_allocate_ok inode file_io_handle
        file_offset inode_size).inode = inode := by
  unfold libfsxfs_inode_read_file_io_handle
  rw [if_pos h]
  exact ⟨rfl, rfl, rfl, rfl⟩

/-- C9 at inode size 128 on the sample image. -/
theorem read_file_io_handle_rejects_unsupported_inode_size_witness :
    ((128 : Nat) ≠ 256 ∧ (128 : Nat) ≠ 512 ∧ (128 : Nat) ≠ 1024 ∧ (128 : Nat) ≠ 2048)
      ∧ (libfsxfs_inode_read_file_io_handle xfs_constants mem_bfio true
          (some libfsxfs_inode_zero) ⟨sample_image, 0⟩ 256 128).result = -1
      ∧ (libfsxfs_inode_read_file_io_handle xfs_constants mem_bfio true
          (some libfsxfs_inode_zero) ⟨sample_image, 0⟩ 256 128).calls = []
      ∧ (libfsxfs_inode_read_file_io_handle xfs_constants mem_bfio true
          (some libfsxfs_inode_zero) ⟨sample_image, 0⟩ 256 128).file_io_handle
        = ⟨sample_image, 0⟩
      ∧ (libfsxfs_inode_read_file_io_handle xfs_constants mem_bfio true
          (some libfsxfs_inode_zero) ⟨sample_image, 0⟩ 256 128).inode
        = some libfsxfs_inode_zero :=
  ⟨by decide, read_file_io_handle_rejects_unsupported_inode_size xfs_constants mem_bfio true
    (some libfsxfs_inode_zero) ⟨sample_image, 0⟩ 256 128 (by decide)⟩

/-- C10: for a supported inode size, when the seek does not fail, the buffer is
allocated and the read delivers exactly `inode_size` bytes `b`, the inode
record after `libfsxfs_inode_read_file_io_handle` is the record that
`libfsxfs_inode_read_data( inode, b, inode_size )` leaves from the same prior
record. -/
theorem read_file_io_handle_decodes_bytes_read {H : Type} (K : header_constants)
    (B : libbfio H) (inode : Option libfsxfs_inode_t) (file_io_handle : H)
    (file_offset : Int) (inode_size : Nat) (b : List uint8_t)
    (hsize : inode_size = 256 ∨ inode_size = 512 ∨ inode_size = 1024 ∨ inode_size = 2048)
    (hseek : (B.seek_offset file_io_handle file_offset).1 ≠ -1)
    (hcount : (B.read_buffer (B.seek_offset file_io_handle file_offset).2 inode_size).1
      = (inode_size : Int))
    (hbytes : (B.read_buffer (B.seek_offset file_io_handle file_offset).2 inode_size).2.1 = b)
    (hlen : b.length = inode_size) :
    (libfsxfs_inode_read_file_io_handle K B true inode file_io_handle file_offset
        inode_size).inode
      = (libfsxfs_inode_read_data K inode (some b) inode_size).2 := by
  unfold libfsxfs_inode_read_file_io_handle
  rw [if_neg (by omega)]
  simp only [hseek, hcount, hbytes, if_false, ne_eq, not_true_eq_false, Bool.true_eq_false]
  split_ifs <;> rfl

/-- C10 on the sample image: the 256 bytes read at offset 256 are the bytes
stored there, and the record after the call is their decoding. -/
theorem read_file_io_handle_decodes_bytes_read_witness :
    ((mem_bfio.seek_offset ⟨sample_image, 0⟩ 256).1 ≠ -1
        ∧ (mem_bfio.read_buffer (mem_bfio.seek_offset ⟨sample_image, 0⟩ 256).2 256).1
          = ((256 : Nat) : Int)
        ∧ (mem_bfio.read_buffer (mem_bfio.seek_offset ⟨sample_image, 0⟩ 256).2 256).2.1
          = (sample_image.drop 256).take 256)
      ∧ (libfsxfs_inode_read_file_io_handle xfs_constants mem_bfio true
          (some libfsxfs_inode_zero) ⟨sample_image, 0⟩ 256 256).inode
        = (libfsxfs_inode_read_data xfs_constants (some libfsxfs_inode_zero)
            (some ((sample_image.drop 256).take 256)) 256).2 :=
  ⟨by decide, read_file_io_handle_decodes_bytes_read xfs_constants mem_bfio
    (some libfsxfs_inode_zero) ⟨sample_image, 0⟩ 256 256 ((sample_image.drop 256).take 256)
    (Or.inl rfl) (by decide) (by decide) (by decide) (by decide)⟩

/-! ## The decimal parser -/

theorem char_at_of_drop (s : List Nat) (i c : Nat) (rest : List Nat)
    (h : s.drop i = c :: rest) : char_at s i = c := by
  have h1 : s[i]? = some c := by
    have h2 := List.getElem?_drop s i 0
    rw [h] at h2
    simpa using h2.symm
  unfold char_at
  rw [List.getD_eq_getElem?_getD, h1]
  rfl

theorem drop_succ_of_drop (s : List Nat) (i c : Nat) (rest : List Nat)
    (h : s.drop i = c :: rest) : s.drop (i + 1) = rest := by
  rw [← List.tail_drop, h]
  rfl

theorem decimal_value_from_le (digits : List Nat) :
    ∀ value : Nat, value ≤ decimal_value_from value digits := by
  induction digits with
  | nil => intro value; exact Nat.le_refl value
  | cons d ds ih =>
    intro value
    have h := ih (value * 10 + d)
    unfold decimal_value_from at h ⊢
    simp only [List.foldl_cons]
    omega

/-- The loop over a run of digits that ends at a terminator, all within the
index limit, stores the number the digits denote, provided it fits 64 bits. -/
theorem copy_loop_digits (s : List Nat) (maximum_string_index : Nat) (digits : List Nat) :
    ∀ (remaining i value : Nat) (rest : List Nat),
      s.drop i = digits.map (fun d => d + 0x30) ++ 0 :: rest →
      (∀ d ∈ digits, d ≤ 9) →
      i + digits.length ≤ maximum_string_index + 1 →
      digits.length < remaining →
      decimal_value_from value digits < 2 ^ 64 →
      copy_from_64_bit_in_decimal_loop s maximum_string_index remaining i value
        = (1, decimal_value_from value digits) := by
  induction digits with
  | nil =>
    intro remaining i value rest hs _ _ hrem _
    have hc : char_at s i = 0 := char_at_of_drop s i 0 rest (by simpa using hs)
    obtain ⟨r, rfl⟩ : ∃ r, remaining = r + 1 := ⟨remaining - 1, by simp at hrem; omega⟩
    unfold copy_from_64_bit_in_decimal_loop
    rw [if_pos hc]
    rfl
  | cons d ds ih =>
    intro remaining i value rest hs hd hmax hrem hfit
    have hs1 : s.drop i = (d + 0x30) :: (ds.map (fun d => d + 0x30) ++ 0 :: rest) := by
      simpa using hs
    have hc : char_at s i = d + 0x30 := char_at_of_drop s i _ _ hs1
    have hnext := drop_succ_of_drop s i _ _ hs1
    have hd9 : d ≤ 9 := hd d (List.mem_cons_self d ds)
    simp only [List.length_cons] at hmax hrem
    obtain ⟨r, rfl⟩ : ∃ r, remaining = r + 1 := ⟨remaining - 1, by omega⟩
    have hfit1 : decimal_value_from (value * 10 + d) ds < 2 ^ 64 := by
      unfold decimal_value_from at hfit ⊢
      simpa using hfit
    have hle := decimal_value_from_le ds (value * 10 + d)
    have hval : (value * 10 % 2 ^ 64 + (char_at s i - 0x30)) % 2 ^ 64 = value * 10 + d := by
      rw [hc]
      omega
    unfold copy_from_64_bit_in_decimal_loop
    rw [if_neg (by rw [hc]; omega), if_neg (by omega), if_pos (by rw [hc]; omega)]
    simp only [hval]
    rw [ih r (i + 1) (value * 10 + d) rest hnext
      (fun x hx => hd x (List.mem_cons_of_mem d hx)) (by omega) (by omega) hfit1]
    unfold decimal_value_from
    simp

/-- C11: for a NUL-terminated string of an optional `+` and 1 to 20 decimal
digits that denote a number `n` below 2^64,
`info_handle_system_string_copy_from_64_bit_in_decimal` called with
`string_size` = length + 1 (at most `SSIZE_MAX`) returns 1 and stores exactly
`n`, whatever `*value_64bit` held before. -/
theorem copy_from_64_bit_in_decimal_accepts (SSIZE_MAX : Nat) (plus : Bool)
    (digits : List Nat) (before : Nat)
    (hdigit : ∀ d ∈ digits, d ≤ 9)
    (hlen : 1 ≤ digits.length ∧ digits.length ≤ 20)
    (hfit : decimal_value digits < 2 ^ 64)
    (hsize : (decimal_string plus digits).length ≤ SSIZE_MAX) :
    info_handle_system_string_copy_from_64_bit_in_decimal SSIZE_MAX
        (some (decimal_string plus digits)) (decimal_string plus digits).length (some before)
      = (1, some (decimal_value digits)) := by
  obtain ⟨d, ds, rfl⟩ : ∃ d ds, digits = d :: ds := by
    cases digits with
    | nil => simp at hlen
    | cons d ds => exact ⟨d, ds, rfl⟩
  have hd9 : d ≤ 9 := hdigit d (List.mem_cons_self d ds)
  simp only [List.length_cons] at hlen
  unfold info_handle_system_string_copy_from_64_bit_in_decimal
  simp only []
  rw [if_neg (by omega)]
  cases plus with
  | false =>
    have h0 : char_at (decimal_string false (d :: ds)) 0 = d + 0x30 := by
      simp [decimal_string, char_at]
    have hloop := copy_loop_digits (decimal_string false (d :: ds)) 20 (d :: ds)
      ((decimal_string false (d :: ds)).length - 0) 0 0 []
      (by simp [decimal_string]) hdigit (by simp only [List.length_cons]; omega)
      (by simp [decimal_string]) hfit
    have hns : ¬ (d + 0x30 = 0x2D ∨ d + 0x30 = 0x2B) := by omega
    have hnm : ¬ (d + 0x30 = 0x2D) := by omega
    simp only [h0, if_neg hns, if_neg hnm]
    rw [hloop]
    simp [decimal_value]
  | true =>
    have h0 : char_at (decimal_string true (d :: ds)) 0 = 0x2B := by
      simp [decimal_string, char_at]
    have hloop := copy_loop_digits (decimal_string true (d :: ds)) 21 (d :: ds)
      ((decimal_string true (d :: ds)).length - 1) 1 0 []
      (by simp [decimal_string]) hdigit (by simp only [List.length_cons]; omega)
      (by simp [decimal_string]) hfit
    simp only [h0, or_true, if_true, Nat.reduceEqDiff, false_or, if_false]
    rw [hloop]
    simp [decimal_value]

/-- C11 at the string `+18446744073709551615` (2^64 - 1, 20 digits). -/
theorem copy_from_64_bit_in_decimal_accepts_witness :
    ((∀ d ∈ [1, 8, 4, 4, 6, 7, 4, 4, 0, 7, 3, 7, 0, 9, 5, 5, 1, 6, 1, 5], d ≤ 9)
        ∧ decimal_value [1, 8, 4, 4, 6, 7, 4, 4, 0, 7, 3, 7, 0, 9, 5, 5, 1, 6, 1, 5]
          = 18446744073709551615)
      ∧ info_handle_system_string_copy_from_64_bit_in_decimal (2 ^ 63 - 1)
          (some (decimal_string true
            [1, 8, 4, 4, 6, 7, 4, 4, 0, 7, 3, 7, 0, 9, 5, 5, 1, 6, 1, 5]))
          (decimal_string true
            [1, 8, 4, 4, 6, 7, 4, 4, 0, 7, 3, 7, 0, 9, 5, 5, 1, 6, 1, 5]).length (some 7)
        = (1, some (decimal_value
            [1, 8, 4, 4, 6, 7, 4, 4, 0, 7, 3, 7, 0, 9, 5, 5, 1, 6, 1, 5])) :=
  ⟨⟨by decide, by decide⟩,
    copy_from_64_bit_in_decimal_accepts (2 ^ 63 - 1) true
      [1, 8, 4, 4, 6, 7, 4, 4, 0, 7, 3, 7, 0, 9, 5, 5, 1, 6, 1, 5] 7
      (by decide) (by decide) (by decide) (by decide)⟩

/-- C12, evaluated at two failing inputs: for the 20-digit string
`18446744073709551616` (2^64) and the 21-digit string `100000000000000000000`
(10^20) `info_handle_system_string_copy_from_64_bit_in_decimal` returns 1 and
stores the number modulo 2^64 (0 and 7766279631452241920); only from 22 digits
on does it return -1. -/
theorem copy_from_64_bit_in_decimal_wraps :
    decimal_value [1, 8, 4, 4, 6, 7, 4, 4, 0, 7, 3, 7, 0, 9, 5, 5, 1, 6, 1, 6] = 2 ^ 64
      ∧ info_handle_system_string_copy_from_64_bit_in_decimal (2 ^ 63 - 1)
          (some (decimal_string false
            [1, 8, 4, 4, 6, 7, 4, 4, 0, 7, 3, 7, 0, 9, 5, 5, 1, 6, 1, 6])) 21 (some 7)
        = (1, some 0)
      ∧ decimal_value [1, 0, 0, 0, 0, 0, 0, 0, 0, 0, 0, 0, 0, 0, 0, 0, 0, 0, 0, 0, 0] = 10 ^ 20
      ∧ 2 ^ 64 ≤ 10 ^ 20
      ∧ info_handle_system_string_copy_from_64_bit_in_decimal (2 ^ 63 - 1)
          (some (decimal_string false
            [1, 0, 0, 0, 0, 0, 0, 0, 0, 0, 0, 0, 0, 0, 0, 0, 0, 0, 0, 0, 0])) 22 (some 7)
        = (1, some 7766279631452241920)
      ∧ (info_handle_system_string_copy_from_64_bit_in_decimal (2 ^ 63 - 1)
          (some (decimal_string false
            [1, 0, 0, 0, 0, 0, 0, 0, 0, 0, 0, 0, 0, 0, 0, 0, 0, 0, 0, 0, 0, 0])) 23 (some 7)).1
        = -1 := by
  decide

/-- The loop returns -1 when it meets, before any terminator and before
`string_size`, a character that is not a decimal digit. -/
theorem copy_loop_rejects (s : List Nat) (maximum_string_index : Nat) :
    ∀ (remaining i value k : Nat), i ≤ k → k < i + remaining →
      (∀ j, j ≤ k → char_at s j ≠ 0) →
      ¬ (char_at s k ≥ 0x30 ∧ char_at s k ≤ 0x39) →
      (copy_from_64_bit_in_decimal_loop s maximum_string_index remaining i value).1 = -1 := by
  intro remaining
  induction remaining with
  | zero =>
    intro i value k hik hk _ _
    omega
  | succ r ih =>
    intro i value k hik hk hnz hbad
    unfold copy_from_64_bit_in_decimal_loop
    rw [if_neg (hnz i hik)]
    by_cases hmax : i > maximum_string_index
    · rw [if_pos hmax]
    · rw [if_neg hmax]
      by_cases hdig : char_at s i ≥ 0x30 ∧ char_at s i ≤ 0x39
      · simp only [if_pos hdig]
        have hne : i ≠ k := by
          intro h
          rw [h] at hdig
          exact hbad hdig
        exact ih (i + 1) _ k (by omega) (by omega) hnz hbad
      · simp only [if_neg hdig]

/-- C13: when a string holds, after an optional single leading `+` or `-`, at
an index `k` below `string_size` and before any NUL, a character other than
`0` to `9`, `info_handle_system_string_copy_from_64_bit_in_decimal` returns
-1. -/
theorem copy_from_64_bit_in_decimal_rejects_non_digit (SSIZE_MAX : Nat) (s : List Nat)
    (string_size : Nat) (value_64bit : Option Nat) (k : Nat)
    (hstart : (if char_at s 0 = 0x2D ∨ char_at s 0 = 0x2B then 1 else 0) ≤ k)
    (hk : k < string_size)
    (hnz : ∀ j, j ≤ k → char_at s j ≠ 0)
    (hbad : ¬ (char_at s k ≥ 0x30 ∧ char_at s k ≤ 0x39)) :
    (info_handle_system_string_copy_from_64_bit_in_decimal SSIZE_MAX (some s) string_size
      value_64bit).1 = -1 := by
  unfold info_handle_system_string_copy_from_64_bit_in_decimal
  simp only []
  by_cases hsize : string_size > SSIZE_MAX
  · rw [if_pos hsize]
  · rw [if_neg hsize]
    cases value_64bit with
    | none => rfl
    | some before =>
      have hloop := copy_loop_rejects s
        (if char_at s 0 = 0x2D ∨ char_at s 0 = 0x2B then 21 else 20)
        (string_size - (if char_at s 0 = 0x2D ∨ char_at s 0 = 0x2B then 1 else 0))
        (if char_at s 0 = 0x2D ∨ char_at s 0 = 0x2B then 1 else 0) 0 k hstart
        (by omega) hnz hbad
      simp only [hloop, if_true]

/-- C13 at the strings `-12a4` (a letter after a sign and two digits) and
`+-5` (a second sign). -/
theorem copy_from_64_bit_in_decimal_rejects_non_digit_witness :
    (info_handle_system_string_copy_from_64_bit_in_decimal (2 ^ 63 - 1)
        (some [0x2D, 0x31, 0x32, 0x61, 0x34, 0]) 6 (some 7)).1 = -1
      ∧ (info_handle_system_string_copy_from_64_bit_in_decimal (2 ^ 63 - 1)
        (some [0x2B, 0x2D, 0x35, 0]) 4 (some 7)).1 = -1 :=
  ⟨copy_from_64_bit_in_decimal_rejects_non_digit (2 ^ 63 - 1)
      [0x2D, 0x31, 0x32, 0x61, 0x34, 0] 6 (some 7) 3 (by decide) (by decide)
      (by intro j hj; interval_cases j <;> decide) (by decide),
    copy_from_64_bit_in_decimal_rejects_non_digit (2 ^ 63 - 1)
      [0x2B, 0x2D, 0x35, 0] 4 (some 7) 1 (by decide) (by decide)
      (by intro j hj; interval_cases j <;> decide) (by decide)⟩

/-! ## Creation of an inode record -/

/-- C14: `libfsxfs_inode_initialize` returns -1 for a NULL reference and for a
reference that already holds an inode, which it leaves as it was; for a
reference that holds NULL it returns 1 when the allocation succeeds and the new
record has every field equal to zero. -/
theorem inode_initialize_contract (memory_allocate_ok : Bool) (i : libfsxfs_inode_t) :
    ( libfsxfs_inode_initialize memory_allocate_ok none).1 = -1
      ∧ ( libfsxfs_inode_initialize memory_allocate_ok (some (some i))) = (-1, some (some i))
      ∧ ( libfsxfs_inode_initialize true (some none))
        = (1, some (some
            { file_mode := 0, owner_identifier := 0, group_identifier := 0,
              access_time := 0, modification_time := 0, inode_change_time := 0,
              creation_time := 0 })) :=
  ⟨rfl, rfl, rfl⟩

/-! ## The abort signal -/

/-- C15: for every non-NULL info handle, after `info_handle_signal_abort` the
abort flag of the handle is 1, also when `libfsxfs_volume_signal_abort` fails
on the input volume and the call returns -1; when the handle has no input
volume the call returns 1 and changes no field other than `abort`. -/
theorem signal_abort_sets_abort {V : Type} (libfsxfs_volume_signal_abort : V → Int × V)
    (h : info_handle_t V) :
    Option.map info_handle_t.abort
        (info_handle_signal_abort libfsxfs_volume_signal_abort (some h)).2 = some 1
      ∧ (∀ volume, h.input_volume = some volume →
          (libfsxfs_volume_signal_abort volume).1 ≠ 1 →
          (info_handle_signal_abort libfsxfs_volume_signal_abort (some h)).1 = -1)
      ∧ (h.input_volume = none →
          info_handle_signal_abort libfsxfs_volume_signal_abort (some h)
            = (1, some { h with abort := 1 })) := by
  refine ⟨?_, ?_, ?_⟩
  · unfold info_handle_signal_abort
    simp only []
    cases hv : h.input_volume with
    | none => rfl
    | some volume =>
      simp only []
      split_ifs <;> rfl
  · intro volume hv hf
    unfold info_handle_signal_abort
    simp only [hv]
    rw [if_pos hf]
  · intro hv
    unfold info_handle_signal_abort
    simp only [hv]

/-- C15 at a handle whose input volume fails to take the signal: the call
returns -1 and the abort flag is 1. -/
theorem signal_abort_sets_abort_witness :
    (sample_info_handle.input_volume = some 0 ∧ (failing_volume_signal_abort 0).1 ≠ 1)
      ∧ Option.map info_handle_t.abort
          (info_handle_signal_abort failing_volume_signal_abort (some sample_info_handle)).2
        = some 1
      ∧ (info_handle_signal_abort failing_volume_signal_abort (some sample_info_handle)).1
        = -1 :=
  ⟨by decide,
    (signal_abort_sets_abort failing_volume_signal_abort sample_info_handle).1,
    (signal_abort_sets_abort failing_volume_signal_abort sample_info_handle).2.1 0
      (by decide) (by decide)⟩

/-! ## Printing file entries -/

/-- C16, refuted as stated: for a NULL info handle
`info_handle_file_entry_fprint_by_identifier` returns -1 although no printing
and no freeing of a file entry fails (none of the calls is made, and none of
them would fail). -/
theorem fprint_by_identifier_null_handle_counterexample :
    (info_handle_file_entry_fprint_by_identifier succeeding_file_entry_calls
        (none : Option (info_handle_t Nat)) 5 (some none)).result = -1
      ∧ (info_handle_file_entry_fprint_by_identifier succeeding_file_entry_calls
        (none : Option (info_handle_t Nat)) 5 (some none)).output = []
      ∧ (info_handle_file_entry_fprint_by_identifier succeeding_file_entry_calls
        (none : Option (info_handle_t Nat)) 5 (some none)).calls = []
      ∧ (succeeding_file_entry_calls.info_handle_file_entry_value_with_name_fprint
        (some 5) (some none)).1 = 1
      ∧ (succeeding_file_entry_calls.libfsxfs_file_entry_free (some 5) (some none)).1 = 1 := by
  decide

/-- C16, amended: for a non-NULL info handle
`info_handle_file_entry_fprint_by_identifier` returns 0 whenever
`libfsxfs_volume_get_file_entry_by_inode` does not return 1, and then the
caller's error value is freed and the lookup is the only call made on a file
entry; otherwise it returns -1 when printing the file entry fails or freeing
it fails, and 1 when both succeed. For a NULL info handle it returns -1
without looking up, printing or freeing a file entry: it makes no call on a
file entry, writes nothing to the notify stream and only sets the error, and
what it leaves behind is the same whatever the three calls would do. -/
theorem fprint_by_identifier_results {V F : Type} (C : file_entry_calls V F)
    (h : info_handle_t V) (file_entry_identifier : Nat)
    (error : Option (Option libcerror_error_t)) :
    ((C.libfsxfs_volume_get_file_entry_by_inode h.input_volume file_entry_identifier
          error).1 ≠ 1 →
        (info_handle_file_entry_fprint_by_identifier C (some h) file_entry_identifier
            error).result = 0
          ∧ (info_handle_file_entry_fprint_by_identifier C (some h) file_entry_identifier
            error).error
            = libcerror_error_free (C.libfsxfs_volume_get_file_entry_by_inode h.input_volume
                file_entry_identifier error).2.2
          ∧ (info_handle_file_entry_fprint_by_identifier C (some h) file_entry_identifier
            error).calls
            = [file_entry_call.libfsxfs_volume_get_file_entry_by_inode file_entry_identifier])
      ∧ ((C.libfsxfs_volume_get_file_entry_by_inode h.input_volume file_entry_identifier
          error).1 = 1 →
        (info_handle_file_entry_fprint_by_identifier C (some h) file_entry_identifier
            error).result
          = if (C.info_handle_file_entry_value_with_name_fprint
                (C.libfsxfs_volume_get_file_entry_by_inode h.input_volume
                  file_entry_identifier error).2.1
                (C.libfsxfs_volume_get_file_entry_by_inode h.input_volume
                  file_entry_identifier error).2.2).1 ≠ 1
              ∨ (C.libfsxfs_file_entry_free
                (C.libfsxfs_volume_get_file_entry_by_inode h.input_volume
                  file_entry_identifier error).2.1
                (C.info_handle_file_entry_value_with_name_fprint
                  (C.libfsxfs_volume_get_file_entry_by_inode h.input_volume
                    file_entry_identifier error).2.1
                  (C.libfsxfs_volume_get_file_entry_by_inode h.input_volume
                    file_entry_identifier error).2.2).2).1 ≠ 1
            then -1 else 1)
      ∧ (info_handle_file_entry_fprint_by_identifier C (none : Option (info_handle_t V))
          file_entry_identifier error).result = -1
      ∧ (info_handle_file_entry_fprint_by_identifier C (none : Option (info_handle_t V))
          file_entry_identifier error).calls = []
      ∧ (info_handle_file_entry_fprint_by_identifier C (none : Option (info_handle_t V))
          file_entry_identifier error).output = []
      ∧ (info_handle_file_entry_fprint_by_identifier C (none : Option (info_handle_t V))
          file_entry_identifier error).error
        = libcerror_error_set error libcerror_code.argument_invalid_value
      ∧ (∀ C' : file_entry_calls V F,
          info_handle_file_entry_fprint_by_identifier C' (none : Option (info_handle_t V))
              file_entry_identifier error
            = info_handle_file_entry_fprint_by_identifier C
              (none : Option (info_handle_t V)) file_entry_identifier error) := by
  refine ⟨?_, ?_, rfl, rfl, rfl, rfl, fun _ => rfl⟩
  · intro hget
    unfold info_handle_file_entry_fprint_by_identifier
    simp only [if_pos hget, and_self]
  · intro hget
    unfold info_handle_file_entry_fprint_by_identifier
    simp only [hget, ne_eq, not_true_eq_false, if_false]
    split_ifs <;> simp_all

/-- C16, amended, on a volume without file entries and a caller's error value
that is set before the call: the function returns 0, the error value is NULL
afterwards and the lookup is the only call. -/
theorem fprint_by_identifier_results_witness :
    (failing_file_entry_calls.libfsxfs_volume_get_file_entry_by_inode
        sample_info_handle.input_volume 5
        (some (some [libcerror_code.runtime_print_failed]))).1 ≠ 1
      ∧ (info_handle_file_entry_fprint_by_identifier failing_file_entry_calls
          (some sample_info_handle) 5
          (some (some [libcerror_code.runtime_print_failed]))).result = 0
      ∧ (info_handle_file_entry_fprint_by_identifier failing_file_entry_calls
          (some sample_info_handle) 5
          (some (some [libcerror_code.runtime_print_failed]))).error
        = libcerror_error_free
            (failing_file_entry_calls.libfsxfs_volume_get_file_entry_by_inode
              sample_info_handle.input_volume 5
              (some (some [libcerror_code.runtime_print_failed]))).2.2
      ∧ (info_handle_file_entry_fprint_by_identifier failing_file_entry_calls
          (some sample_info_handle) 5
          (some (some [libcerror_code.runtime_print_failed]))).calls
        = [file_entry_call.libfsxfs_volume_get_file_entry_by_inode 5] :=
  ⟨by decide,
    (fprint_by_identifier_results failing_file_entry_calls sample_info_handle 5
      (some (some [libcerror_code.runtime_print_failed]))).1 (by decide)⟩

/-- C17: with `TODO` undefined `info_handle_file_entries_fprint` returns 1 for
every info handle, NULL included, and calls
`info_handle_file_entry_fprint_by_identifier` for no identifier, whatever that
function would return. -/
theorem file_entries_fprint_visits_nothing {V : Type} (fprint_by_identifier : Nat → Int)
    (info_handle : Option (info_handle_t V)) :
    info_handle_file_entries_fprint fprint_by_identifier info_handle = (1, []) := by
  rfl

/-! ## The record after a failed decode -/

/-- C18, refuted as stated: on a 256-byte buffer with signature `IN` and format
version 7 `libfsxfs_inode_read_data` returns -1 and the zeroed record is not
what it was: its file mode is 0x81a4, its owner 1000 and its access time
1000000002. -/
theorem read_data_unsupported_version_counterexample :
    (libfsxfs_inode_read_data xfs_constants (some libfsxfs_inode_zero)
        (some (buffer_of (sample_header 7) 0 256)) 256).1 = -1
      ∧ (libfsxfs_inode_read_data xfs_constants (some libfsxfs_inode_zero)
        (some (buffer_of (sample_header 7) 0 256)) 256).2 ≠ some libfsxfs_inode_zero
      ∧ (libfsxfs_inode_read_data xfs_constants (some libfsxfs_inode_zero)
        (some (buffer_of (sample_header 7) 0 256)) 256).2
        = some { file_mode := 0x81A4, owner_identifier := 1000, group_identifier := 100,
                 access_time := 1000000002, modification_time := 3000000004,
                 inode_change_time := 5000000006, creation_time := 0 } := by
  decide

/-- C18, amended: when `libfsxfs_inode_read_data` returns -1 for a NULL
argument, a data size out of bounds or a wrong signature, the inode record is
what it was before the call; when the arguments are non-NULL, the data size is
within bounds, the signature is `IN` and the format version is not 1, 2 or 3,
the call returns -1 and the record holds the file mode, the identifiers and the
three times decoded from the buffer (the creation time is what it was). -/
theorem read_data_failure_effect (K : header_constants) (inode : Option libfsxfs_inode_t)
    (data : Option (List uint8_t)) (data_size : Nat) :
    (∀ ino d, inode = some ino → data = some d →
        K.sizeof_fsxfs_inode_v1_t ≤ data_size → data_size ≤ K.SSIZE_MAX →
        byte_at d offset_signature = 0x49 ∧ byte_at d (offset_signature + 1) = 0x4E →
        byte_at d offset_format_version ≠ 1 ∧ byte_at d offset_format_version ≠ 2
          ∧ byte_at d offset_format_version ≠ 3 →
        libfsxfs_inode_read_data K inode data data_size = (-1, some (read_data_fields ino d)))
      ∧ ((libfsxfs_inode_read_data K inode data data_size).1 = -1 →
        (inode = none ∨ data = none ∨ data_size < K.sizeof_fsxfs_inode_v1_t
          ∨ data_size > K.SSIZE_MAX
          ∨ (∃ d, data = some d ∧ byte_at d offset_format_version = 3
              ∧ data_size < K.sizeof_fsxfs_inode_v3_t)
          ∨ ∃ d, data = some d ∧ ¬ (byte_at d offset_signature = 0x49
              ∧ byte_at d (offset_signature + 1) = 0x4E)) →
        (libfsxfs_inode_read_data K inode data data_size).2 = inode) := by
  refine ⟨?_, ?_⟩
  · intro ino d hi hd h1 h2 hsig hv
    subst hi hd
    unfold libfsxfs_inode_read_data
    simp only []
    rw [if_neg (by omega), if_neg (by omega), if_neg (not_not.mpr hsig), if_pos hv]
  · intro _ hcase
    unfold libfsxfs_inode_read_data
    cases inode with
    | none => rfl
    | some ino =>
      cases data with
      | none => rfl
      | some d =>
        simp only []
        rcases hcase with h | h | h | h | ⟨d', hd', hv, hn⟩ | ⟨d', hd', hsig⟩
        · exact absurd h (by simp)
        · exact absurd h (by simp)
        · rw [if_pos (Or.inl h)]
        · rw [if_pos (Or.inr h)]
        · cases hd'
          by_cases h1 : data_size < K.sizeof_fsxfs_inode_v1_t ∨ data_size > K.SSIZE_MAX
          · rw [if_pos h1]
          · rw [if_neg h1, if_pos ⟨hv, hn⟩]
        · cases hd'
          split_ifs <;> rfl

/-- C18, amended, at the buffer with format version 7 and at a buffer with a
wrong signature. -/
theorem read_data_failure_effect_witness :
    libfsxfs_inode_read_data xfs_constants (some libfsxfs_inode_zero)
        (some (buffer_of (sample_header 7) 0 256)) 256
      = (-1, some (read_data_fields libfsxfs_inode_zero (buffer_of (sample_header 7) 0 256)))
      ∧ (libfsxfs_inode_read_data xfs_constants (some libfsxfs_inode_zero)
        (some (buffer_of [0x58, 0x4E, 0x81, 0xA4, 3] 0 256)) 256).2
        = some libfsxfs_inode_zero :=
  ⟨(read_data_failure_effect xfs_constants (some libfsxfs_inode_zero)
      (some (buffer_of (sample_header 7) 0 256)) 256).1 libfsxfs_inode_zero
      (buffer_of (sample_header 7) 0 256) rfl rfl (by decide) (by decide) (by decide)
      (by decide),
    (read_data_failure_effect xfs_constants (some libfsxfs_inode_zero)
      (some (buffer_of [0x58, 0x4E, 0x81, 0xA4, 3] 0 256)) 256).2 (by decide)
      (Or.inr (Or.inr (Or.inr (Or.inr (Or.inr ⟨_, rfl, by decide⟩)))))⟩

/-! ## Escaping a name -/

theorem sprintf_escape_of_control (c : Nat) (h : is_control_character c) :
    sprintf_escape c
      = [0x5C, 0x78, hexadecimal_digit (c / 16), hexadecimal_digit (c % 16)] := by
  have hall : ∀ n < 160, sprintf_escape n
      = [0x5C, 0x78, hexadecimal_digit (n / 16), hexadecimal_digit (n % 16)] := by decide
  unfold is_control_character at h
  exact hall c (by omega)

theorem escape_character_not_control (c x : Nat) (hx : x ∈ escape_character c) :
    ¬ is_control_character x := by
  unfold escape_character at hx
  by_cases hc : is_control_character c
  · rw [if_pos hc] at hx
    unfold is_control_character at hc ⊢
    unfold hexadecimal_digit at hx
    simp only [List.mem_cons, List.mem_singleton, List.not_mem_nil, or_false] at hx
    rcases hx with h | h | h | h
    · omega
    · omega
    · split_ifs at h <;> omega
    · split_ifs at h <;> omega
  · rw [if_neg hc] at hx
    simp only [List.mem_singleton] at hx
    rw [hx]
    exact hc

/-- The loop of `info_handle_name_value_fprint` under the contract of libuna:
it ends within the fuel, the index stays within 4 units per unit of the value
string, every write stays within the buffer, and on a value string that decodes
to the characters `cs` it ends with 1 and has stored their escapes. -/
theorem name_value_fprint_loop_spec (U : libuna) (hU : libuna_contract U) (s : List Nat)
    (len : Nat) :
    ∀ (fuel i : Nat) (e : escaped_value_string_t), i ≤ len → len - i ≤ fuel →
      e.index ≤ 4 * i → (∀ w ∈ e.writes, w.1 + w.2 ≤ len * 4 + 1) →
      ∃ r e', info_handle_name_value_fprint_loop U s len (len * 4 + 1) fuel i e = some (r, e')
        ∧ e'.index ≤ 4 * len
        ∧ (∀ w ∈ e'.writes, w.1 + w.2 ≤ len * 4 + 1)
        ∧ (∀ cs, decode_value_string U s len fuel i = some cs →
            r = 1 ∧ e'.text = e.text ++ cs.flatMap escape_character) := by
  obtain ⟨hfrom, hto, hroom⟩ := hU
  intro fuel
  induction fuel with
  | zero =>
    intro i e hi hfuel hidx hw
    have hnot : ¬ i < len := by omega
    refine ⟨1, e, ?_, by omega, hw, ?_⟩
    · unfold info_handle_name_value_fprint_loop
      rw [if_neg hnot]
    · intro cs hcs
      unfold decode_value_string at hcs
      rw [if_neg hnot] at hcs
      cases hcs
      simp
  | succ fuel ih =>
    intro i e hi hfuel hidx hw
    by_cases hlt : i < len
    · unfold info_handle_name_value_fprint_loop decode_value_string
      simp only [if_pos hlt]
      by_cases hdec : (U.unicode_character_copy_from_utf8 s len i).1 ≠ 1
      · simp only [if_pos hdec]
        exact ⟨-1, e, rfl, by omega, hw, fun cs hcs => by simp at hcs⟩
      · simp only [if_neg hdec]
        have hdec1 := not_not.mp hdec
        obtain ⟨hadv, hend⟩ := hfrom s len i hdec1
        by_cases hctl : (U.unicode_character_copy_from_utf8 s len i).2.1 ≤ 0x1F
            ∨ ((U.unicode_character_copy_from_utf8 s len i).2.1 ≥ 0x7F
              ∧ (U.unicode_character_copy_from_utf8 s len i).2.1 ≤ 0x9F)
        · simp only [if_pos hctl]
          have hctl' : is_control_character (U.unicode_character_copy_from_utf8 s len i).2.1 :=
            hctl
          have hesc := sprintf_escape_of_control _ hctl'
          have hsub : size_t_sub (len * 4 + 1) e.index = len * 4 + 1 - e.index := by
            unfold size_t_sub
            rw [if_pos (by omega)]
          rw [hesc, hsub]
          obtain ⟨r, e', hloop, hidx', hw', htext⟩ := ih
            (U.unicode_character_copy_from_utf8 s len i).2.2
            { index := e.index + 4,
              text := e.text ++ List.take (len * 4 + 1 - e.index - 1)
                [0x5C, 0x78,
                  hexadecimal_digit ((U.unicode_character_copy_from_utf8 s len i).2.1 / 16),
                  hexadecimal_digit ((U.unicode_character_copy_from_utf8 s len i).2.1 % 16)],
              writes := e.writes ++ [(e.index, min (4 + 1) (len * 4 + 1 - e.index))] }
            hend (by omega) (by simp only []; omega)
            (by
              intro w hmem
              simp only [List.mem_append, List.mem_singleton] at hmem
              rcases hmem with hmem | hmem
              · exact hw w hmem
              · rw [hmem]
                simp only []
                omega)
          refine ⟨r, e', hloop, hidx', hw', ?_⟩
          intro cs hcs
          cases hrest : decode_value_string U s len fuel
              (U.unicode_character_copy_from_utf8 s len i).2.2 with
          | none => rw [hrest] at hcs; simp at hcs
          | some cs' =>
            rw [hrest] at hcs
            simp only [Option.map_some', Option.some.injEq] at hcs
            obtain ⟨hr, ht⟩ := htext cs' hrest
            refine ⟨hr, ?_⟩
            rw [ht, ← hcs]
            simp only [List.flatMap_cons]
            unfold escape_character
            have hfits : ([0x5C, 0x78,
                hexadecimal_digit ((U.unicode_character_copy_from_utf8 s len i).2.1 / 16),
                hexadecimal_digit ((U.unicode_character_copy_from_utf8 s len i).2.1 % 16)]
                  : List Nat).length ≤ len * 4 + 1 - e.index - 1 := by
              simp only [List.length_cons, List.length_nil]
              omega
            rw [if_pos hctl', List.take_of_length_le hfits]
            simp
        · simp only [if_neg hctl]
          have hctl' : ¬ is_control_character
              (U.unicode_character_copy_from_utf8 s len i).2.1 := hctl
          have henc := hroom (U.unicode_character_copy_from_utf8 s len i).2.1 (len * 4 + 1)
            e.index (by omega)
          obtain ⟨hgt, hle4, hle⟩ := hto _ _ _ henc
          simp only [henc, ne_eq, not_true_eq_false, if_false]
          obtain ⟨r, e', hloop, hidx', hw', htext⟩ := ih
            (U.unicode_character_copy_from_utf8 s len i).2.2
            { index := (U.unicode_character_copy_to_utf8
                (U.unicode_character_copy_from_utf8 s len i).2.1 (len * 4 + 1) e.index).2,
              text := e.text ++ [(U.unicode_character_copy_from_utf8 s len i).2.1],
              writes := e.writes ++ [(e.index, (U.unicode_character_copy_to_utf8
                (U.unicode_character_copy_from_utf8 s len i).2.1 (len * 4 + 1) e.index).2
                  - e.index)] }
            hend (by omega) (by simp only []; omega)
            (by
              intro w hmem
              simp only [List.mem_append, List.mem_singleton] at hmem
              rcases hmem with hmem | hmem
              · exact hw w hmem
              · rw [hmem]
                simp only []
                omega)
          refine ⟨r, e', hloop, hidx', hw', ?_⟩
          intro cs hcs
          cases hrest : decode_value_string U s len fuel
              (U.unicode_character_copy_from_utf8 s len i).2.2 with
          | none => rw [hrest] at hcs; simp at hcs
          | some cs' =>
            rw [hrest] at hcs
            simp only [Option.map_some', Option.some.injEq] at hcs
            obtain ⟨hr, ht⟩ := htext cs' hrest
            refine ⟨hr, ?_⟩
            rw [ht, ← hcs]
            simp only [List.flatMap_cons]
            unfold escape_character
            rw [if_neg hctl']
            simp
    · refine ⟨1, e, ?_, by omega, hw, ?_⟩
      · unfold info_handle_name_value_fprint_loop
        rw [if_neg hlt]
      · intro cs hcs
        unfold decode_value_string at hcs
        rw [if_neg hlt] at hcs
        cases hcs
        simp

theorem sample_libuna_contract : libuna_contract sample_libuna := by
  refine ⟨?_, ?_, ?_⟩
  · intro s size i h
    unfold sample_libuna at h ⊢
    simp only [] at h ⊢
    split_ifs at h ⊢ with h1 h2 h3
    · simp only []
      omega
    · simp only []
      omega
    · simp at h
    · simp at h
  · intro c size i h
    unfold sample_libuna at h ⊢
    simp only [] at h ⊢
    split_ifs at h ⊢ <;> (simp only []; omega)
  · intro c size i h
    unfold sample_libuna
    simp only []
    split_ifs <;> first
      | rfl
      | (exfalso; omega)

theorem flatMap_escape_not_control (cs : List Nat) :
    ∀ x ∈ cs.flatMap escape_character, ¬ is_control_character x := by
  intro x hx
  obtain ⟨c, _, hxc⟩ := List.mem_flatMap.mp hx
  exact escape_character_not_control c x hxc

/-- C19: under the contract of libuna, for a non-NULL info handle and a value
string of a length within the limit that decodes to the Unicode characters
`cs`, `info_handle_name_value_fprint` (with its buffer allocated) returns 1 and
prints, to the bodyfile stream when there is one and to the notify stream
otherwise, the concatenation of `escape_character c` over the characters `c`
of `cs`: backslash, `x` and two lowercase hexadecimal digits for a character
in U+0000 to U+001F or U+007F to U+009F, the character itself otherwise. The
printed text holds no character in U+0000 to U+001F or U+007F to U+009F. -/
theorem name_value_fprint_prints_escapes {V : Type} (U : libuna) (hU : libuna_contract U)
    (SSIZE_MAX : Nat) (h : info_handle_t V) (s : List Nat) (len : Nat) (cs : List Nat)
    (hlen : len ≤ (SSIZE_MAX - 1) / 4)
    (hcs : decode_value_string U s len len 0 = some cs) :
    ∃ r, info_handle_name_value_fprint U SSIZE_MAX true (some h) (some s) len = some r
      ∧ r.result = 1
      ∧ r.stream = (if h.bodyfile_stream ≠ none then h.bodyfile_stream else h.notify_stream)
      ∧ r.printed = cs.flatMap escape_character
      ∧ ∀ x ∈ r.printed, ¬ is_control_character x := by
  obtain ⟨r, e', hloop, _, _, htext⟩ := name_value_fprint_loop_spec U hU s len len 0
    { index := 0, text := [], writes := [] } (by omega) (by omega) (by simp only []; omega)
    (by intro w hw; simp at hw)
  obtain ⟨hr, ht⟩ := htext cs hcs
  simp only [List.nil_append] at ht
  have hprinted : e'.text.takeWhile (fun c => decide (c ≠ 0)) = cs.flatMap escape_character := by
    rw [ht]
    apply List.takeWhile_eq_self_iff.mpr
    intro x hx
    have hnc := flatMap_escape_not_control cs x hx
    unfold is_control_character at hnc
    simp only [ne_eq, decide_not, Bool.not_eq_eq_eq_not, Bool.not_true, decide_eq_false_iff_not]
    omega
  subst hr
  unfold info_handle_name_value_fprint
  have hlen' : ¬ len > (SSIZE_MAX - 1) / (1 * 4) := by
    simp only [Nat.one_mul]
    omega
  simp only [if_neg hlen', hloop]
  refine ⟨_, rfl, ?_, ?_, ?_, ?_⟩
  · simp
  · simp
  · simpa using hprinted
  · simp only [ne_eq, not_true_eq_false, if_false]
    intro x hx
    have hx' : x ∈ e'.text.takeWhile (fun c => decide (c ≠ 0)) := by simpa using hx
    rw [hprinted] at hx'
    exact flatMap_escape_not_control cs x hx'

/-- C19 at the value string `a`, line feed, U+0085, `b`: the text printed is
`a\x0a\x85b`. -/
theorem name_value_fprint_prints_escapes_witness :
    decode_value_string sample_libuna sample_value_string 5 5 0 = some [0x61, 0x0A, 0x85, 0x62]
      ∧ ∃ r, info_handle_name_value_fprint sample_libuna (2 ^ 63 - 1) true
          (some sample_info_handle) (some sample_value_string) 5 = some r
        ∧ r.result = 1
        ∧ r.stream = (if sample_info_handle.bodyfile_stream ≠ none
            then sample_info_handle.bodyfile_stream else sample_info_handle.notify_stream)
        ∧ r.printed = [0x61, 0x0A, 0x85, 0x62].flatMap escape_character
        ∧ ∀ x ∈ r.printed, ¬ is_control_character x :=
  ⟨by decide,
    name_value_fprint_prints_escapes sample_libuna sample_libuna_contract (2 ^ 63 - 1)
      sample_info_handle sample_value_string 5 [0x61, 0x0A, 0x85, 0x62] (by decide)
      (by decide)⟩

/-- C20: under the contract of libuna, for a non-NULL info handle and a value
string of `value_string_length` units within the limit, valid UTF-8 or not,
`info_handle_name_value_fprint` (with its buffer allocated) ends, the buffer
has 4 × `value_string_length` + 1 units, the escaped string is at most 4 ×
`value_string_length` units long and every write into the buffer (each escape
with its terminator, each copied character and the final terminator) ends
within the buffer. -/
theorem name_value_fprint_writes_in_bounds {V : Type} (U : libuna) (hU : libuna_contract U)
    (SSIZE_MAX : Nat) (h : info_handle_t V) (s : List Nat) (len : Nat)
    (hlen : len ≤ (SSIZE_MAX - 1) / 4) :
    ∃ r, info_handle_name_value_fprint U SSIZE_MAX true (some h) (some s) len = some r
      ∧ r.escaped_value_string_size = 4 * len + 1
      ∧ r.escaped_value_string_index ≤ 4 * len
      ∧ ∀ w ∈ r.writes, w.1 + w.2 ≤ r.escaped_value_string_size := by
  obtain ⟨r, e', hloop, hidx, hw, _⟩ := name_value_fprint_loop_spec U hU s len len 0
    { index := 0, text := [], writes := [] } (by omega) (by omega) (by simp only []; omega)
    (by intro w hw; simp at hw)
  unfold info_handle_name_value_fprint
  have hlen' : ¬ len > (SSIZE_MAX - 1) / (1 * 4) := by
    simp only [Nat.one_mul]
    omega
  simp only [if_neg hlen', hloop]
  by_cases hr : r ≠ 1
  · simp only [if_pos hr]
    refine ⟨_, rfl, by simp only []; omega, hidx, ?_⟩
    exact hw
  · simp only [if_neg hr]
    refine ⟨_, rfl, by simp only []; omega, hidx, ?_⟩
    intro w hmem
    simp only [Bool.true_eq_false, if_false, List.mem_append, List.mem_singleton] at hmem
    rcases hmem with hmem | hmem
    · exact hw w hmem
    · rw [hmem]
      simp only []
      omega

/-- C20 at the value string `a`, line feed, U+0085, `b` of 5 units: the buffer
has 21 units, the escaped string 10, and the writes are 1 unit at 0, 5 units at
1, 5 units at 5, 1 unit at 9 and the terminator at 10. -/
theorem name_value_fprint_writes_in_bounds_witness :
    (∃ r, info_handle_name_value_fprint sample_libuna (2 ^ 63 - 1) true
          (some sample_info_handle) (some sample_value_string) 5 = some r
        ∧ r.escaped_value_string_size = 4 * 5 + 1
        ∧ r.escaped_value_string_index ≤ 4 * 5
        ∧ ∀ w ∈ r.writes, w.1 + w.2 ≤ r.escaped_value_string_size)
      ∧ Option.map name_value_fprint_result.writes
          (info_handle_name_value_fprint sample_libuna (2 ^ 63 - 1) true
            (some sample_info_handle) (some sample_value_string) 5)
        = some [(0, 1), (1, 5), (5, 5), (9, 1), (10, 1)] :=
  ⟨name_value_fprint_writes_in_bounds sample_libuna sample_libuna_contract (2 ^ 63 - 1)
      sample_info_handle sample_value_string 5 (by decide),
    by decide⟩

/-! ## The file mode string -/

/-- The array `file_mode_string` written out: the file type letter, the nine
permission letters and the terminator. -/
theorem file_mode_string_eq (file_mode : Nat) :
    file_mode_string file_mode
      = [file_type_character file_mode,
         permission_character file_mode 0x0100 'r', permission_character file_mode 0x0080 'w',
         permission_character file_mode 0x0040 'x', permission_character file_mode 0x0020 'r',
         permission_character file_mode 0x0010 'w', permission_character file_mode 0x0008 'x',
         permission_character file_mode 0x0004 'r', permission_character file_mode 0x0002 'w',
         permission_character file_mode 0x0001 'x', Char.ofNat 0] := by
  unfold file_mode_string file_type_character permission_character
  simp only [← Bool.cond_decide]
  generalize decide (file_mode &&& 0x0001 ≠ 0) = b1
  generalize decide (file_mode &&& 0x0002 ≠ 0) = b2
  generalize decide (file_mode &&& 0x0004 ≠ 0) = b3
  generalize decide (file_mode &&& 0x0008 ≠ 0) = b4
  generalize decide (file_mode &&& 0x0010 ≠ 0) = b5
  generalize decide (file_mode &&& 0x0020 ≠ 0) = b6
  generalize decide (file_mode &&& 0x0040 ≠ 0) = b7
  generalize decide (file_mode &&& 0x0080 ≠ 0) = b8
  generalize decide (file_mode &&& 0x0100 ≠ 0) = b9
  generalize file_mode &&& 0xf000 = t
  split
  · revert b1 b2 b3 b4 b5 b6 b7 b8 b9; decide
  · revert b1 b2 b3 b4 b5 b6 b7 b8 b9; decide
  · revert b1 b2 b3 b4 b5 b6 b7 b8 b9; decide
  · revert b1 b2 b3 b4 b5 b6 b7 b8 b9; decide
  · revert b1 b2 b3 b4 b5 b6 b7 b8 b9; decide
  · revert b1 b2 b3 b4 b5 b6 b7 b8 b9; decide
  · rename_i h1 h2 h3 h4 h5 h6
    have e1 : decide (t = 0x1000) = false := decide_eq_false h1
    have e2 : decide (t = 0x2000) = false := decide_eq_false h2
    have e3 : decide (t = 0x4000) = false := decide_eq_false h3
    have e4 : decide (t = 0x6000) = false := decide_eq_false h4
    have e5 : decide (t = 0xa000) = false := decide_eq_false h5
    have e6 : decide (t = 0xc000) = false := decide_eq_false h6
    rw [e1, e2, e3, e4, e5, e6]
    revert b1 b2 b3 b4 b5 b6 b7 b8 b9; decide

theorem permission_character_ne_nul (file_mode mask : Nat) (letter : Char)
    (h : letter ≠ Char.ofNat 0) : permission_character file_mode mask letter ≠ Char.ofNat 0 := by
  unfold permission_character
  split_ifs
  · exact h
  · decide

theorem file_type_character_ne_nul (file_mode : Nat) :
    file_type_character file_mode ≠ Char.ofNat 0 := by
  unfold file_type_character
  split_ifs <;> decide

theorem c_string_file_mode_string (file_mode : Nat) :
    c_string (file_mode_string file_mode)
      = [file_type_character file_mode,
         permission_character file_mode 0x0100 'r', permission_character file_mode 0x0080 'w',
         permission_character file_mode 0x0040 'x', permission_character file_mode 0x0020 'r',
         permission_character file_mode 0x0010 'w', permission_character file_mode 0x0008 'x',
         permission_character file_mode 0x0004 'r', permission_character file_mode 0x0002 'w',
         permission_character file_mode 0x0001 'x'] := by
  rw [file_mode_string_eq]
  unfold c_string
  simp [List.takeWhile_cons, file_type_character_ne_nul, permission_character_ne_nul]

/-- C21: for every file mode the mode string built by
`info_handle_file_entry_value_with_name_fprint` has exactly 10 characters, and
its characters 1 to 9 are `r`, `w`, `x` for the user bits 0x0100, 0x0080,
0x0040, for the group bits 0x0020, 0x0010, 0x0008 and for the other bits
0x0004, 0x0002, 0x0001: the letter when the bit is set and `-` when it is
clear. -/
theorem file_mode_string_permissions (file_mode : Nat) :
    (c_string (file_mode_string file_mode)).length = 10
      ∧ (c_string (file_mode_string file_mode)).drop 1
        = [if file_mode &&& 0x0100 ≠ 0 then 'r' else '-',
           if file_mode &&& 0x0080 ≠ 0 then 'w' else '-',
           if file_mode &&& 0x0040 ≠ 0 then 'x' else '-',
           if file_mode &&& 0x0020 ≠ 0 then 'r' else '-',
           if file_mode &&& 0x0010 ≠ 0 then 'w' else '-',
           if file_mode &&& 0x0008 ≠ 0 then 'x' else '-',
           if file_mode &&& 0x0004 ≠ 0 then 'r' else '-',
           if file_mode &&& 0x0002 ≠ 0 then 'w' else '-',
           if file_mode &&& 0x0001 ≠ 0 then 'x' else '-'] := by
  rw [c_string_file_mode_string]
  exact ⟨rfl, rfl⟩

/-- C22: for every file mode, character 0 of the mode string is `p`, `c`, `d`,
`b`, `l`, `s` when `file_mode & 0xf000` is 0x1000, 0x2000, 0x4000, 0x6000,
0xa000, 0xc000, and `-` for 0x8000 and for every other value of the type
nibble. -/
theorem file_mode_string_file_type (file_mode : Nat) :
    (file_mode &&& 0xf000 = 0x1000 → (c_string (file_mode_string file_mode))[0]? = some 'p')
      ∧ (file_mode &&& 0xf000 = 0x2000 → (c_string (file_mode_string file_mode))[0]? = some 'c')
      ∧ (file_mode &&& 0xf000 = 0x4000 → (c_string (file_mode_string file_mode))[0]? = some 'd')
      ∧ (file_mode &&& 0xf000 = 0x6000 → (c_string (file_mode_string file_mode))[0]? = some 'b')
      ∧ (file_mode &&& 0xf000 = 0xa000 → (c_string (file_mode_string file_mode))[0]? = some 'l')
      ∧ (file_mode &&& 0xf000 = 0xc000 → (c_string (file_mode_string file_mode))[0]? = some 's')
      ∧ (file_mode &&& 0xf000 = 0x8000 → (c_string (file_mode_string file_mode))[0]? = some '-')
      ∧ (file_mode &&& 0xf000 ≠ 0x1000 ∧ file_mode &&& 0xf000 ≠ 0x2000
          ∧ file_mode &&& 0xf000 ≠ 0x4000 ∧ file_mode &&& 0xf000 ≠ 0x6000
          ∧ file_mode &&& 0xf000 ≠ 0xa000 ∧ file_mode &&& 0xf000 ≠ 0xc000 →
        (c_string (file_mode_string file_mode))[0]? = some '-') := by
  rw [c_string_file_mode_string]
  simp only [List.getElem?_cons_zero, Option.some.injEq]
  unfold file_type_character
  refine ⟨?_, ?_, ?_, ?_, ?_, ?_, ?_, ?_⟩
  · intro h; rw [if_pos h]
  · intro h; rw [if_neg (by omega), if_pos h]
  · intro h; rw [if_neg (by omega), if_neg (by omega), if_pos h]
  · intro h; rw [if_neg (by omega), if_neg (by omega), if_neg (by omega), if_pos h]
  · intro h
    rw [if_neg (by omega), if_neg (by omega), if_neg (by omega), if_neg (by omega), if_pos h]
  · intro h
    rw [if_neg (by omega), if_neg (by omega), if_neg (by omega), if_neg (by omega),
      if_neg (by omega), if_pos h]
  · intro h
    rw [if_neg (by omega), if_neg (by omega), if_neg (by omega), if_neg (by omega),
      if_neg (by omega), if_neg (by omega)]
  · intro h
    rw [if_neg h.1, if_neg h.2.1, if_neg h.2.2.1, if_neg h.2.2.2.1, if_neg h.2.2.2.2.1,
      if_neg h.2.2.2.2.2]

/-- C22 at the file modes 0x41ed (directory, rwxr-xr-x), 0x81a4 (regular file,
rw-r--r--) and 0xf1ff (type nibble 0xf, no file type of the list). -/
theorem file_mode_string_file_type_witness :
    ((0x41ED : Nat) &&& 0xf000 = 0x4000 ∧ (0x81A4 : Nat) &&& 0xf000 = 0x8000)
      ∧ (c_string (file_mode_string 0x41ED))[0]? = some 'd'
      ∧ (c_string (file_mode_string 0x81A4))[0]? = some '-'
      ∧ (c_string (file_mode_string 0xF1FF))[0]? = some '-'
      ∧ c_string (file_mode_string 0x41ED)
        = ['d', 'r', 'w', 'x', 'r', '-', 'x', 'r', '-', 'x'] :=
  ⟨by decide,
    (file_mode_string_file_type 0x41ED).2.2.1 (by decide),
    (file_mode_string_file_type 0x81A4).2.2.2.2.2.2.1 (by decide),
    (file_mode_string_file_type 0xF1FF).2.2.2.2.2.2.2 (by decide),
    by decide⟩

/-! ## The frame of libfsxfs_inode_read_data -/

/-- C23: when `libfsxfs_inode_read_data` returns 1, the record after the call
holds the file mode, the owner and group identifier and the access,
modification and inode change time decoded from the buffer, whatever these six
fields held before, and every other field (the creation time) has its prior
value. The outcome of a call is the same for two buffers that agree on the
signature (bytes 0 and 1), the file mode (2 and 3), the format version (4), the
identifiers (8 to 15) and the times (32 to 55). -/
theorem read_data_frame (K : header_constants) (inode : Option libfsxfs_inode_t)
    (d : List uint8_t) (data_size : Nat)
    (h : (libfsxfs_inode_read_data K inode (some d) data_size).1 = 1) :
    (∃ before, inode = some before
        ∧ (libfsxfs_inode_read_data K inode (some d) data_size).2
          = some { file_mode := uint16_big_endian d 2,
                   owner_identifier := uint32_big_endian d 8,
                   group_identifier := uint32_big_endian d 12,
                   access_time := (uint32_big_endian d 32 : Int) * 1000000000
                     + (uint32_big_endian d 36 : Int),
                   modification_time := (uint32_big_endian d 40 : Int) * 1000000000
                     + (uint32_big_endian d 44 : Int),
                   inode_change_time := (uint32_big_endian d 48 : Int) * 1000000000
                     + (uint32_big_endian d 52 : Int),
                   creation_time := before.creation_time })
      ∧ ∀ d' : List uint8_t,
          (∀ i, i < 5 ∨ (8 ≤ i ∧ i < 16) ∨ (32 ≤ i ∧ i < 56) → byte_at d' i = byte_at d i) →
          libfsxfs_inode_read_data K inode (some d') data_size
            = libfsxfs_inode_read_data K inode (some d) data_size := by
  refine ⟨?_, ?_⟩
  · obtain ⟨before, h1, h2⟩ := read_data_success K inode d data_size h
    refine ⟨before, h1, ?_⟩
    rw [h2]
    unfold read_data_fields offset_file_mode offset_owner_identifier offset_group_identifier
      offset_access_time offset_access_time_nano_seconds offset_modification_time
      offset_modification_time_nano_seconds offset_inode_change_time
      offset_inode_change_time_nano_seconds
    rw [copy_to_uint16_eq, copy_to_uint32_eq, copy_to_uint32_eq, read_time_eq, read_time_eq,
      read_time_eq]
  · intro d' hb
    have hfields : ∀ ino, read_data_fields ino d' = read_data_fields ino d := by
      intro ino
      unfold read_data_fields read_time byte_stream_copy_to_uint16_big_endian
        byte_stream_copy_to_uint32_big_endian offset_file_mode offset_owner_identifier
        offset_group_identifier offset_access_time offset_access_time_nano_seconds
        offset_modification_time offset_modification_time_nano_seconds
        offset_inode_change_time offset_inode_change_time_nano_seconds
      simp only [Nat.reduceAdd]
      rw [hb 2 (by omega),
      hb 3 (by omega),
      hb 8 (by omega),
      hb 9 (by omega),
      hb 10 (by omega),
      hb 11 (by omega),
      hb 12 (by omega),
      hb 13 (by omega),
      hb 14 (by omega),
      hb 15 (by omega),
      hb 32 (by omega),
      hb 33 (by omega),
      hb 34 (by omega),
      hb 35 (by omega),
      hb 36 (by omega),
      hb 37 (by omega),
      hb 38 (by omega),
      hb 39 (by omega),
      hb 40 (by omega),
      hb 41 (by omega),
      hb 42 (by omega),
      hb 43 (by omega),
      hb 44 (by omega),
      hb 45 (by omega),
      hb 46 (by omega),
      hb 47 (by omega),
      hb 48 (by omega),
      hb 49 (by omega),
      hb 50 (by omega),
      hb 51 (by omega),
      hb 52 (by omega),
      hb 53 (by omega),
      hb 54 (by omega),
      hb 55 (by omega)]
    unfold libfsxfs_inode_read_data
    cases inode with
    | none => rfl
    | some ino =>
      simp only []
      unfold offset_format_version offset_signature
      simp only [Nat.reduceAdd]
      rw [hb 4 (by omega), hb 0 (by omega), hb 1 (by omega), hfields ino]

/-- C23 at a version 2 header and a zeroed record, and at a second buffer that
differs from the first in every byte that the decoder does not read. -/
theorem read_data_frame_witness :
    (libfsxfs_inode_read_data xfs_constants (some libfsxfs_inode_zero)
        (some (buffer_of (sample_header 2) 0 256)) 256).1 = 1
      ∧ (libfsxfs_inode_read_data xfs_constants (some libfsxfs_inode_zero)
        (some (buffer_of (sample_header 2) 0 256)) 256).2
        = some { file_mode := 0x81A4, owner_identifier := 1000, group_identifier := 100,
                 access_time := 1000000002, modification_time := 3000000004,
                 inode_change_time := 5000000006, creation_time := 0 }
      ∧ ∀ d' : List uint8_t,
          (∀ i, i < 5 ∨ (8 ≤ i ∧ i < 16) ∨ (32 ≤ i ∧ i < 56) →
            byte_at d' i = byte_at (buffer_of (sample_header 2) 0 256) i) →
          libfsxfs_inode_read_data xfs_constants (some libfsxfs_inode_zero) (some d') 256
            = libfsxfs_inode_read_data xfs_constants (some libfsxfs_inode_zero)
                (some (buffer_of (sample_header 2) 0 256)) 256 :=
  ⟨by decide, by decide,
    (read_data_frame xfs_constants (some libfsxfs_inode_zero)
      (buffer_of (sample_header 2) 0 256) 256 (by decide)).2⟩

/-! ## Fork type names -/

/-- C24: `libfsxfs_debug_print_fork_type` maps the fork types 0, 1, 2, 3, 4, 5
to the names `XFS_DINODE_FMT_DEV`, `_LOCAL`, `_EXTENTS`, `_BTREE`, `_UUID`,
`_RMAP`, which are pairwise distinct, and every other 8-bit value to
`Unknown`. -/
theorem debug_print_fork_type_names :
    libfsxfs_debug_print_fork_type 0 = "XFS_DINODE_FMT_DEV"
      ∧ libfsxfs_debug_print_fork_type 1 = "XFS_DINODE_FMT_LOCAL"
      ∧ libfsxfs_debug_print_fork_type 2 = "XFS_DINODE_FMT_EXTENTS"
      ∧ libfsxfs_debug_print_fork_type 3 = "XFS_DINODE_FMT_BTREE"
      ∧ libfsxfs_debug_print_fork_type 4 = "XFS_DINODE_FMT_UUID"
      ∧ libfsxfs_debug_print_fork_type 5 = "XFS_DINODE_FMT_RMAP"
      ∧ (∀ a b : uint8_t, a.val ≤ 5 → b.val ≤ 5 → a ≠ b →
          libfsxfs_debug_print_fork_type a ≠ libfsxfs_debug_print_fork_type b)
      ∧ ∀ fork_type : uint8_t, 5 < fork_type.val →
          libfsxfs_debug_print_fork_type fork_type = "Unknown" := by
  refine ⟨rfl, rfl, rfl, rfl, rfl, rfl, ?_, ?_⟩
  · intro a b ha hb hne
    obtain ⟨a, ha'⟩ := a
    obtain ⟨b, hb'⟩ := b
    simp only [] at ha hb
    have hab : a ≠ b := fun hab => hne (Fin.ext hab)
    unfold libfsxfs_debug_print_fork_type
    simp only []
    interval_cases a <;> interval_cases b <;> first
      | exact absurd rfl hab
      | decide
  · intro fork_type hx
    unfold libfsxfs_debug_print_fork_type
    split <;> first
      | rfl
      | (exfalso; omega)

/-- C24 at the fork types 2 and 3 (distinct names) and 6 and 255 (`Unknown`). -/
theorem debug_print_fork_type_names_witness :
    libfsxfs_debug_print_fork_type 2 ≠ libfsxfs_debug_print_fork_type 3
      ∧ libfsxfs_debug_print_fork_type 6 = "Unknown"
      ∧ libfsxfs_debug_print_fork_type 255 = "Unknown" :=
  ⟨debug_print_fork_type_names.2.2.2.2.2.2.1 2 3 (by decide) (by decide) (by decide),
    debug_print_fork_type_names.2.2.2.2.2.2.2 6 (by decide),
    debug_print_fork_type_names.2.2.2.2.2.2.2 255 (by decide)⟩

end Fsxfs
